import Mathlib

/-
Verification of the escrow payment state machine of the Monkey-bridge
repository.  The two Solidity contracts under src/contracts/contracts
(PaymentEscrow.sol and PaymentEscrowWithSwap.sol) are shallowly embedded:
contract storage becomes an explicit record, `mapping` storage becomes an
association list whose reads default to the zero-initialised struct (EVM
storage semantics), each external function becomes a Lean function
returning `Except Err State` (a revert aborts the whole call, so failure
returns no state, matching EVM atomicity), and `keccak256(abi.encodePacked
...)` payment-id derivation is modelled by the packed tuple itself, i.e.
the hash is treated as injective and a collision is an equal tuple.
Solidity 0.8 checked arithmetic: additions never wrap in a successful call
and are modelled on Nat; the one subtraction that can underflow
(`accumulatedFees -= payment.fee` in PaymentEscrowWithSwap.refundPayment)
is modelled by an explicit guard that fails the call, and token transfers
out of custody are guarded by the contract balance as SafeERC20 reverts
when the balance is insufficient.
-/

/-- Association-list model of Solidity `mapping` storage: first-match read
with a default value (the zero-initialised struct). -/
def AL.getD {K V : Type} [DecidableEq K] : List (K × V) → K → V → V
  | [], _, d => d
  | (k', v) :: t, k, d => if k' = k then v else AL.getD t k d

/-- Association-list model of a Solidity `mapping` write: replace the first
binding of the key, or append a new binding. -/
def AL.store {K V : Type} [DecidableEq K] : List (K × V) → K → V → List (K × V)
  | [], k, v => [(k, v)]
  | (k', v') :: t, k, v => if k' = k then (k, v) :: t else (k', v') :: AL.store t k v

/-- Sum of a numeric projection over all stored values. -/
def AL.sumBy {K V : Type} (f : V → Nat) : List (K × V) → Nat
  | [] => 0
  | (_, v) :: t => f v + AL.sumBy f t

/-- Revert reasons of the two contracts, one constructor per `require`
message (plus the checked-arithmetic underflow revert). -/
inductive Err
  | paused
  | amountZero
  | orderIdRequired
  | collision
  | notAuthorized
  | invalidStatus
  | invalidRecipient
  | multiSigRequired
  | notOwner
  | cannotRefund
  | timeoutNotReached
  | cannotDispute
  | multiSigNotRequired
  | alreadyApproved
  | notDisputed
  | invalidAddress
  | noFees
  | feeTooHigh
  | timeoutTooLong
  | slippageTooHigh
  | transferFailed
  | alreadyPaused
  | notPaused
  | slippage
  | underflow
deriving DecidableEq, Repr

/-- The `PaymentStatus` enum shared verbatim by both contracts; `Pending`
is the zero value a fresh storage slot decodes to. -/
inductive PaymentStatus
  | Pending
  | Processing
  | Completed
  | Refunded
  | Disputed
deriving DecidableEq, Repr

/-- Statuses whose payments still hold custody (spec §8 Conservation). -/
def isActive : PaymentStatus → Bool
  | .Pending => true
  | .Processing => true
  | .Disputed => true
  | .Completed => false
  | .Refunded => false

/-- Edges of the status graph of spec §4.4. -/
def stepOK : PaymentStatus → PaymentStatus → Bool
  | .Pending, .Processing => true
  | .Pending, .Completed => true
  | .Pending, .Refunded => true
  | .Pending, .Disputed => true
  | .Processing, .Completed => true
  | .Processing, .Refunded => true
  | .Processing, .Disputed => true
  | .Disputed, .Completed => true
  | .Disputed, .Refunded => true
  | _, _ => false

deriving instance DecidableEq for Except

/-- Whether a call completed without reverting. -/
def isGood {S : Type} : Except Err S → Bool
  | .ok _ => true
  | .error _ => false

/-- A Solidity `require(c, e)` guarding the rest of the call. -/
def chk {S : Type} (c : Prop) [Decidable c] (e : Err) (k : Except Err S) : Except Err S :=
  if c then k else .error e

/-- `(amount * feeBps) / 10000`, the fee expression both contracts inline. -/
def feeOn (bps amount : Nat) : Nat := amount * bps / 10000

/-- PaymentEscrowWithSwap._calculateMinAmountOut: the slippage-bounded
minimum swap output derived from the router quote. -/
def calcMinAmountOut (expectedOut slippageTolerance : Nat) : Nat :=
  expectedOut * (10000 - slippageTolerance) / 10000

namespace Plain

/-- Packed keccak preimage of a PaymentEscrow paymentId:
`abi.encodePacked(msg.sender, orderId, block.timestamp, block.number)`;
keccak is modelled as injective, so equality of tuples is a hash collision. -/
structure PaymentId where
  sender : Nat
  orderId : String
  timestamp : Nat
  blockNumber : Nat
deriving DecidableEq, Repr

/-- The PaymentEscrow.Payment struct; the `mapping(address => bool)
hasApproved` member becomes the list of approvers recorded `true`. -/
structure Payment where
  user : Nat
  amount : Nat
  fee : Nat
  depositTime : Nat
  status : PaymentStatus
  orderId : String
  merchantUrl : String
  requiresMultiSig : Bool
  approvalCount : Nat
  hasApproved : List Nat
deriving DecidableEq, Repr

/-- The zero-initialised Payment struct an untouched storage slot decodes to. -/
def zeroPayment : Payment :=
  { user := 0, amount := 0, fee := 0, depositTime := 0, status := .Pending,
    orderId := "", merchantUrl := "", requiresMultiSig := false,
    approvalCount := 0, hasApproved := [] }

/-- PaymentEscrow contract storage. `custody` is the contract's PYUSD
balance (the token itself is external; SafeERC20 transfers into the
contract raise it, transfers out lower it and revert when it is too
small). `admins`/`backends` are the AccessControl role sets; the inherited
role-management endpoints never touch the ledger or custody and are not
modelled as operations, so the sets are constant. -/
structure EscrowState where
  paused : Bool
  platformFeeBps : Nat
  escrowTimeout : Nat
  multiSigThreshold : Nat
  accumulatedFees : Nat
  custody : Nat
  payments : List (PaymentId × Payment)
  admins : List Nat
  backends : List Nat
deriving DecidableEq, Repr

/-- State right after the constructor: feeBps 150, timeout 1 hour,
multi-sig threshold 1000e6, deployer is admin, `_backend` has BACKEND_ROLE. -/
def initState (deployer backend : Nat) : EscrowState :=
  { paused := false, platformFeeBps := 150, escrowTimeout := 3600,
    multiSigThreshold := 1000000000, accumulatedFees := 0, custody := 0,
    payments := [], admins := [deployer], backends := [backend] }

/-- PaymentEscrow.depositPayment. -/
def depositPayment (s : EscrowState) (sender now blockNum amount : Nat)
    (orderId merchantUrl : String) : Except Err EscrowState :=
  chk (s.paused = false) .paused <|
  chk (0 < amount) .amountZero <|
  chk (0 < orderId.length) .orderIdRequired <|
  chk ((AL.getD s.payments ⟨sender, orderId, now, blockNum⟩ zeroPayment).user = 0) .collision <|
  Except.ok { s with
    custody := s.custody + (amount + feeOn s.platformFeeBps amount),
    payments := AL.store s.payments ⟨sender, orderId, now, blockNum⟩
      { user := sender, amount := amount, fee := feeOn s.platformFeeBps amount,
        depositTime := now, status := .Pending, orderId := orderId,
        merchantUrl := merchantUrl,
        requiresMultiSig := decide (s.multiSigThreshold ≤ amount),
        approvalCount := 0, hasApproved := [] } }

/-- PaymentEscrow.releasePayment. -/
def releasePayment (s : EscrowState) (sender : Nat) (pid : PaymentId)
    (recipient : Nat) : Except Err EscrowState :=
  chk (sender ∈ s.backends) .notAuthorized <|
  chk ((AL.getD s.payments pid zeroPayment).status = .Pending ∨
       (AL.getD s.payments pid zeroPayment).status = .Processing) .invalidStatus <|
  chk (recipient ≠ 0) .invalidRecipient <|
  chk ((AL.getD s.payments pid zeroPayment).requiresMultiSig = true →
       2 ≤ (AL.getD s.payments pid zeroPayment).approvalCount) .multiSigRequired <|
  chk ((AL.getD s.payments pid zeroPayment).amount ≤ s.custody) .transferFailed <|
  Except.ok { s with
    payments := AL.store s.payments pid
      { AL.getD s.payments pid zeroPayment with status := .Completed },
    accumulatedFees := s.accumulatedFees + (AL.getD s.payments pid zeroPayment).fee,
    custody := s.custody - (AL.getD s.payments pid zeroPayment).amount }

/-- PaymentEscrow.refundPayment (self-service, timeout-gated). -/
def refundPayment (s : EscrowState) (sender now : Nat) (pid : PaymentId) :
    Except Err EscrowState :=
  chk ((AL.getD s.payments pid zeroPayment).user = sender) .notOwner <|
  chk ((AL.getD s.payments pid zeroPayment).status = .Pending ∨
       (AL.getD s.payments pid zeroPayment).status = .Processing) .cannotRefund <|
  chk ((AL.getD s.payments pid zeroPayment).depositTime + s.escrowTimeout ≤ now)
      .timeoutNotReached <|
  chk ((AL.getD s.payments pid zeroPayment).amount +
       (AL.getD s.payments pid zeroPayment).fee ≤ s.custody) .transferFailed <|
  Except.ok { s with
    payments := AL.store s.payments pid
      { AL.getD s.payments pid zeroPayment with status := .Refunded },
    custody := s.custody - ((AL.getD s.payments pid zeroPayment).amount +
      (AL.getD s.payments pid zeroPayment).fee) }

/-- PaymentEscrow.initiateRefund (backend-initiated, no timeout check). -/
def initiateRefund (s : EscrowState) (sender : Nat) (pid : PaymentId) :
    Except Err EscrowState :=
  chk (sender ∈ s.backends) .notAuthorized <|
  chk ((AL.getD s.payments pid zeroPayment).status = .Pending ∨
       (AL.getD s.payments pid zeroPayment).status = .Processing) .cannotRefund <|
  chk ((AL.getD s.payments pid zeroPayment).amount +
       (AL.getD s.payments pid zeroPayment).fee ≤ s.custody) .transferFailed <|
  Except.ok { s with
    payments := AL.store s.payments pid
      { AL.getD s.payments pid zeroPayment with status := .Refunded },
    custody := s.custody - ((AL.getD s.payments pid zeroPayment).amount +
      (AL.getD s.payments pid zeroPayment).fee) }

/-- PaymentEscrow.approvePayment: requires status Pending; the first
approval (new count 1) moves the payment to Processing. -/
def approvePayment (s : EscrowState) (sender : Nat) (pid : PaymentId) :
    Except Err EscrowState :=
  chk (sender ∈ s.backends) .notAuthorized <|
  chk ((AL.getD s.payments pid zeroPayment).status = .Pending) .invalidStatus <|
  chk ((AL.getD s.payments pid zeroPayment).requiresMultiSig = true) .multiSigNotRequired <|
  chk (sender ∉ (AL.getD s.payments pid zeroPayment).hasApproved) .alreadyApproved <|
  Except.ok { s with
    payments := AL.store s.payments pid
      { AL.getD s.payments pid zeroPayment with
        hasApproved := sender :: (AL.getD s.payments pid zeroPayment).hasApproved,
        approvalCount := (AL.getD s.payments pid zeroPayment).approvalCount + 1,
        status := if (AL.getD s.payments pid zeroPayment).approvalCount + 1 = 1
                  then .Processing
                  else (AL.getD s.payments pid zeroPayment).status } }

/-- PaymentEscrow.raiseDispute. -/
def raiseDispute (s : EscrowState) (sender : Nat) (pid : PaymentId) :
    Except Err EscrowState :=
  chk (sender = (AL.getD s.payments pid zeroPayment).user ∨ sender ∈ s.backends)
      .notAuthorized <|
  chk ((AL.getD s.payments pid zeroPayment).status = .Pending ∨
       (AL.getD s.payments pid zeroPayment).status = .Processing) .cannotDispute <|
  Except.ok { s with
    payments := AL.store s.payments pid
      { AL.getD s.payments pid zeroPayment with status := .Disputed } }

/-- PaymentEscrow.resolveDispute. -/
def resolveDispute (s : EscrowState) (sender : Nat) (pid : PaymentId)
    (releaseToUser : Bool) (recipient : Nat) : Except Err EscrowState :=
  chk (sender ∈ s.admins) .notAuthorized <|
  chk ((AL.getD s.payments pid zeroPayment).status = .Disputed) .notDisputed <|
  chk (recipient ≠ 0) .invalidRecipient <|
  match releaseToUser with
  | true =>
    chk ((AL.getD s.payments pid zeroPayment).amount +
         (AL.getD s.payments pid zeroPayment).fee ≤ s.custody) .transferFailed <|
    Except.ok { s with
      payments := AL.store s.payments pid
        { AL.getD s.payments pid zeroPayment with status := .Refunded },
      custody := s.custody - ((AL.getD s.payments pid zeroPayment).amount +
        (AL.getD s.payments pid zeroPayment).fee) }
  | false =>
    chk ((AL.getD s.payments pid zeroPayment).amount ≤ s.custody) .transferFailed <|
    Except.ok { s with
      payments := AL.store s.payments pid
        { AL.getD s.payments pid zeroPayment with status := .Completed },
      accumulatedFees := s.accumulatedFees + (AL.getD s.payments pid zeroPayment).fee,
      custody := s.custody - (AL.getD s.payments pid zeroPayment).amount }

/-- PaymentEscrow.withdrawFees. -/
def withdrawFees (s : EscrowState) (sender dest : Nat) : Except Err EscrowState :=
  chk (sender ∈ s.admins) .notAuthorized <|
  chk (dest ≠ 0) .invalidAddress <|
  chk (0 < s.accumulatedFees) .noFees <|
  chk (s.accumulatedFees ≤ s.custody) .transferFailed <|
  Except.ok { s with accumulatedFees := 0, custody := s.custody - s.accumulatedFees }

/-- PaymentEscrow.setPlatformFee (cap MAX_FEE_BPS = 500). -/
def setPlatformFee (s : EscrowState) (sender bps : Nat) : Except Err EscrowState :=
  chk (sender ∈ s.admins) .notAuthorized <|
  chk (bps ≤ 500) .feeTooHigh <|
  Except.ok { s with platformFeeBps := bps }

/-- PaymentEscrow.setEscrowTimeout (cap MAX_TIMEOUT = 24 hours). -/
def setEscrowTimeout (s : EscrowState) (sender t : Nat) : Except Err EscrowState :=
  chk (sender ∈ s.admins) .notAuthorized <|
  chk (t ≤ 86400) .timeoutTooLong <|
  Except.ok { s with escrowTimeout := t }

/-- PaymentEscrow.setMultiSigThreshold. -/
def setMultiSigThreshold (s : EscrowState) (sender t : Nat) : Except Err EscrowState :=
  chk (sender ∈ s.admins) .notAuthorized <|
  Except.ok { s with multiSigThreshold := t }

/-- PaymentEscrow.pause (Pausable._pause reverts when already paused). -/
def pause (s : EscrowState) (sender : Nat) : Except Err EscrowState :=
  chk (sender ∈ s.admins) .notAuthorized <|
  chk (s.paused = false) .alreadyPaused <|
  Except.ok { s with paused := true }

/-- PaymentEscrow.unpause (Pausable._unpause reverts when not paused). -/
def unpause (s : EscrowState) (sender : Nat) : Except Err EscrowState :=
  chk (sender ∈ s.admins) .notAuthorized <|
  chk (s.paused = true) .notPaused <|
  Except.ok { s with paused := false }

/-- The externally callable mutating entry points of PaymentEscrow, with
their call context (caller, block timestamp, block number) as arguments. -/
inductive Op
  | deposit (sender now blockNum amount : Nat) (orderId merchantUrl : String)
  | release (sender : Nat) (pid : PaymentId) (recipient : Nat)
  | refund (sender now : Nat) (pid : PaymentId)
  | opRefund (sender : Nat) (pid : PaymentId)
  | approve (sender : Nat) (pid : PaymentId)
  | dispute (sender : Nat) (pid : PaymentId)
  | resolve (sender : Nat) (pid : PaymentId) (releaseToUser : Bool) (recipient : Nat)
  | withdraw (sender dest : Nat)
  | setFee (sender bps : Nat)
  | setTimeout (sender t : Nat)
  | setThreshold (sender t : Nat)
  | doPause (sender : Nat)
  | doUnpause (sender : Nat)

/-- The transaction sender of an operation. -/
def Op.sender : Op → Nat
  | .deposit snd _ _ _ _ _ => snd
  | .release snd _ _ => snd
  | .refund snd _ _ => snd
  | .opRefund snd _ => snd
  | .approve snd _ => snd
  | .dispute snd _ => snd
  | .resolve snd _ _ _ => snd
  | .withdraw snd _ => snd
  | .setFee snd _ => snd
  | .setTimeout snd _ => snd
  | .setThreshold snd _ => snd
  | .doPause snd => snd
  | .doUnpause snd => snd

/-- Dispatch an operation to the contract function it names. -/
def applyOp (s : EscrowState) : Op → Except Err EscrowState
  | .deposit snd now bn amt oid murl => depositPayment s snd now bn amt oid murl
  | .release snd pid r => releasePayment s snd pid r
  | .refund snd now pid => refundPayment s snd now pid
  | .opRefund snd pid => initiateRefund s snd pid
  | .approve snd pid => approvePayment s snd pid
  | .dispute snd pid => raiseDispute s snd pid
  | .resolve snd pid b r => resolveDispute s snd pid b r
  | .withdraw snd dest => withdrawFees s snd dest
  | .setFee snd bps => setPlatformFee s snd bps
  | .setTimeout snd t => setEscrowTimeout s snd t
  | .setThreshold snd t => setMultiSigThreshold s snd t
  | .doPause snd => pause s snd
  | .doUnpause snd => unpause s snd

/-- States reachable from the constructor by sequences of successful
operations.  Senders are nonzero: no EVM transaction originates from the
zero address. -/
inductive Reachable (deployer backend : Nat) : EscrowState → Prop
  | init : Reachable deployer backend (initState deployer backend)
  | step {s s' : EscrowState} (o : Op) :
      Reachable deployer backend s → o.sender ≠ 0 → applyOp s o = .ok s' →
      Reachable deployer backend s'

/-- The settlement-currency custody a single payment record accounts for:
`amount + fee` while the status is Pending, Processing or Disputed. -/
def contribA (p : Payment) : Nat :=
  if isActive p.status then p.amount + p.fee else 0

/-- Σ (amount + fee) over all Pending/Processing/Disputed payments. -/
def sumActive (l : List (PaymentId × Payment)) : Nat := AL.sumBy contribA l

/-- Same state with the Pausable flag replaced. -/
def setPaused (s : EscrowState) (b : Bool) : EscrowState := { s with paused := b }

end Plain

namespace Swap

/-- Packed keccak preimage of a PaymentEscrowWithSwap paymentId:
`abi.encodePacked(msg.sender, block.timestamp, orderId)` (note: no block
number, unlike the plain contract). -/
structure PaymentId where
  sender : Nat
  timestamp : Nat
  orderId : String
deriving DecidableEq, Repr

/-- The PaymentEscrowWithSwap.Payment struct (no multi-sig fields). -/
structure Payment where
  user : Nat
  amount : Nat
  fee : Nat
  depositTime : Nat
  status : PaymentStatus
  orderId : String
  merchantUrl : String
deriving DecidableEq, Repr

/-- The zero-initialised Payment struct an untouched storage slot decodes to. -/
def zeroPayment : Payment :=
  { user := 0, amount := 0, fee := 0, depositTime := 0, status := .Pending,
    orderId := "", merchantUrl := "" }

/-- PaymentEscrowWithSwap contract storage.  `custody` is the contract's
PYUSD balance; the transient USDC/USDT/ETH amounts pulled for a swap go
straight to the router inside the same call and are not PYUSD custody.
The router itself is external: each swap-calling operation carries the
router's quoted output (`getAmountsOut`) and its executed output as
oracle inputs, and the router reverts when the executed output is below
the `amountOutMin` bound handed to it. -/
structure EscrowState where
  paused : Bool
  platformFeeBps : Nat
  escrowTimeout : Nat
  slippageTolerance : Nat
  accumulatedFees : Nat
  custody : Nat
  payments : List (PaymentId × Payment)
  admins : List Nat
  backends : List Nat
deriving DecidableEq, Repr

/-- State right after the constructor: feeBps 100, timeout 1 hour,
slippage tolerance 50 bps, deployer is admin, backend wallet has
BACKEND_ROLE. -/
def initState (deployer backend : Nat) : EscrowState :=
  { paused := false, platformFeeBps := 100, escrowTimeout := 3600,
    slippageTolerance := 50, accumulatedFees := 0, custody := 0,
    payments := [], admins := [deployer], backends := [backend] }

/-- PaymentEscrowWithSwap.depositPayment: direct PYUSD deposit.  Note the
differences from the plain contract, all present in the source: no
orderId-nonempty check, no collision check (the mapping write overwrites
any record already stored under the derived id), and the fee is added to
`accumulatedFees` immediately at deposit. -/
def depositPayment (s : EscrowState) (sender now amount : Nat)
    (orderId merchantUrl : String) : Except Err EscrowState :=
  chk (s.paused = false) .paused <|
  chk (0 < amount) .amountZero <|
  Except.ok { s with
    custody := s.custody + (amount + feeOn s.platformFeeBps amount),
    payments := AL.store s.payments ⟨sender, now, orderId⟩
      { user := sender, amount := amount, fee := feeOn s.platformFeeBps amount,
        depositTime := now, status := .Pending, orderId := orderId,
        merchantUrl := merchantUrl },
    accumulatedFees := s.accumulatedFees + feeOn s.platformFeeBps amount }

/-- PaymentEscrowWithSwap.swapAndDepositUSDC / swapAndDepositUSDT /
swapAndDepositETH, which share this logic verbatim modulo the source
token: pull `amountIn` of the source asset, swap it for PYUSD with
minimum output `_calculateMinAmountOut(quoteOut)` (the router reverts
when the executed output `actualOut` is below that bound), then compute
the fee on the PYUSD actually received and record the payment, again
accumulating the fee at once and overwriting on id collision. -/
def swapAndDeposit (s : EscrowState) (sender now tokenIn amountIn quoteOut actualOut : Nat)
    (orderId merchantUrl : String) : Except Err EscrowState :=
  chk (s.paused = false) .paused <|
  chk (0 < amountIn) .amountZero <|
  chk (calcMinAmountOut quoteOut s.slippageTolerance ≤ actualOut) .slippage <|
  Except.ok { s with
    custody := s.custody + actualOut,
    payments := AL.store s.payments ⟨sender, now, orderId⟩
      { user := sender, amount := actualOut - feeOn s.platformFeeBps actualOut,
        fee := feeOn s.platformFeeBps actualOut, depositTime := now,
        status := .Pending, orderId := orderId, merchantUrl := merchantUrl },
    accumulatedFees := s.accumulatedFees + feeOn s.platformFeeBps actualOut }

/-- PaymentEscrowWithSwap.swapUSDCtoPYUSD / swapUSDTtoPYUSD /
swapETHtoPYUSD: same swap mechanics but the PYUSD goes straight to the
caller, so escrow storage and PYUSD custody are untouched on success. -/
def swapOnly (s : EscrowState) (sender tokenIn amountIn quoteOut actualOut : Nat) :
    Except Err EscrowState :=
  chk (s.paused = false) .paused <|
  chk (0 < amountIn) .amountZero <|
  chk (calcMinAmountOut quoteOut s.slippageTolerance ≤ actualOut) .slippage <|
  Except.ok s

/-- PaymentEscrowWithSwap.releasePayment: unlike the plain contract it
accepts only status Pending (not Processing) and does not add the fee to
`accumulatedFees` (that already happened at deposit). -/
def releasePayment (s : EscrowState) (sender : Nat) (pid : PaymentId)
    (recipient : Nat) : Except Err EscrowState :=
  chk (sender ∈ s.backends) .notAuthorized <|
  chk ((AL.getD s.payments pid zeroPayment).status = .Pending) .invalidStatus <|
  chk (recipient ≠ 0) .invalidRecipient <|
  chk ((AL.getD s.payments pid zeroPayment).amount ≤ s.custody) .transferFailed <|
  Except.ok { s with
    payments := AL.store s.payments pid
      { AL.getD s.payments pid zeroPayment with status := .Completed },
    custody := s.custody - (AL.getD s.payments pid zeroPayment).amount }

/-- PaymentEscrowWithSwap.refundPayment: only status Pending, timeout
gated, returns amount+fee, and then executes the checked subtraction
`accumulatedFees -= payment.fee`, which reverts the whole call when
`accumulatedFees < fee`. -/
def refundPayment (s : EscrowState) (sender now : Nat) (pid : PaymentId) :
    Except Err EscrowState :=
  chk ((AL.getD s.payments pid zeroPayment).user = sender) .notOwner <|
  chk ((AL.getD s.payments pid zeroPayment).status = .Pending) .invalidStatus <|
  chk ((AL.getD s.payments pid zeroPayment).depositTime + s.escrowTimeout ≤ now)
      .timeoutNotReached <|
  chk ((AL.getD s.payments pid zeroPayment).amount +
       (AL.getD s.payments pid zeroPayment).fee ≤ s.custody) .transferFailed <|
  chk ((AL.getD s.payments pid zeroPayment).fee ≤ s.accumulatedFees) .underflow <|
  Except.ok { s with
    payments := AL.store s.payments pid
      { AL.getD s.payments pid zeroPayment with status := .Refunded },
    custody := s.custody - ((AL.getD s.payments pid zeroPayment).amount +
      (AL.getD s.payments pid zeroPayment).fee),
    accumulatedFees := s.accumulatedFees - (AL.getD s.payments pid zeroPayment).fee }

/-- PaymentEscrowWithSwap.setSlippageTolerance (cap 1000 bps = 10%). -/
def setSlippageTolerance (s : EscrowState) (sender tol : Nat) : Except Err EscrowState :=
  chk (sender ∈ s.admins) .notAuthorized <|
  chk (tol ≤ 1000) .slippageTooHigh <|
  Except.ok { s with slippageTolerance := tol }

/-- PaymentEscrowWithSwap.withdrawFees. -/
def withdrawFees (s : EscrowState) (sender dest : Nat) : Except Err EscrowState :=
  chk (sender ∈ s.admins) .notAuthorized <|
  chk (dest ≠ 0) .invalidAddress <|
  chk (0 < s.accumulatedFees) .noFees <|
  chk (s.accumulatedFees ≤ s.custody) .transferFailed <|
  Except.ok { s with accumulatedFees := 0, custody := s.custody - s.accumulatedFees }

/-- PaymentEscrowWithSwap.pause. -/
def pause (s : EscrowState) (sender : Nat) : Except Err EscrowState :=
  chk (sender ∈ s.admins) .notAuthorized <|
  chk (s.paused = false) .alreadyPaused <|
  Except.ok { s with paused := true }

/-- PaymentEscrowWithSwap.unpause. -/
def unpause (s : EscrowState) (sender : Nat) : Except Err EscrowState :=
  chk (sender ∈ s.admins) .notAuthorized <|
  chk (s.paused = true) .notPaused <|
  Except.ok { s with paused := false }

/-- The externally callable mutating entry points of PaymentEscrowWithSwap;
swap-calling operations carry the router's quoted and executed outputs. -/
inductive Op
  | deposit (sender now amount : Nat) (orderId merchantUrl : String)
  | swapDeposit (sender now tokenIn amountIn quoteOut actualOut : Nat)
      (orderId merchantUrl : String)
  | swapToSelf (sender tokenIn amountIn quoteOut actualOut : Nat)
  | release (sender : Nat) (pid : PaymentId) (recipient : Nat)
  | refund (sender now : Nat) (pid : PaymentId)
  | withdraw (sender dest : Nat)
  | setSlippage (sender tol : Nat)
  | doPause (sender : Nat)
  | doUnpause (sender : Nat)

/-- The transaction sender of an operation. -/
def Op.sender : Op → Nat
  | .deposit snd _ _ _ _ => snd
  | .swapDeposit snd _ _ _ _ _ _ _ => snd
  | .swapToSelf snd _ _ _ _ => snd
  | .release snd _ _ => snd
  | .refund snd _ _ => snd
  | .withdraw snd _ => snd
  | .setSlippage snd _ => snd
  | .doPause snd => snd
  | .doUnpause snd => snd

/-- Dispatch an operation to the contract function it names. -/
def applyOp (s : EscrowState) : Op → Except Err EscrowState
  | .deposit snd now amt oid murl => depositPayment s snd now amt oid murl
  | .swapDeposit snd now tok ain q act oid murl =>
      swapAndDeposit s snd now tok ain q act oid murl
  | .swapToSelf snd tok ain q act => swapOnly s snd tok ain q act
  | .release snd pid r => releasePayment s snd pid r
  | .refund snd now pid => refundPayment s snd now pid
  | .withdraw snd dest => withdrawFees s snd dest
  | .setSlippage snd tol => setSlippageTolerance s snd tol
  | .doPause snd => pause s snd
  | .doUnpause snd => unpause s snd

/-- States reachable from the constructor by sequences of successful
operations (senders nonzero, as in the plain contract). -/
inductive Reachable (deployer backend : Nat) : EscrowState → Prop
  | init : Reachable deployer backend (initState deployer backend)
  | step {s s' : EscrowState} (o : Op) :
      Reachable deployer backend s → o.sender ≠ 0 → applyOp s o = .ok s' →
      Reachable deployer backend s'

/-- The custody the conservation claim (spec §8) attributes to one
payment record: `amount + fee` while Pending/Processing/Disputed. -/
def contribA (p : Payment) : Nat :=
  if isActive p.status then p.amount + p.fee else 0

/-- Σ (amount + fee) over all Pending/Processing/Disputed payments, the
sum named by the conservation claim. -/
def sumActive (l : List (PaymentId × Payment)) : Nat := AL.sumBy contribA l

/-- Same state with the Pausable flag replaced. -/
def setPaused (s : EscrowState) (b : Bool) : EscrowState := { s with paused := b }

end Swap

namespace Plain

/-- Auxiliary inductive invariant of PaymentEscrow: every stored record
with the zero user (a ghost slot written by releasing or disputing a
never-deposited id) carries no money, and the contract's PYUSD balance
equals Σ (amount+fee) over Pending/Processing/Disputed payments plus the
accumulated fees. -/
def Inv (s : EscrowState) : Prop :=
  (∀ e ∈ s.payments, e.2.user = 0 → e.2.amount = 0 ∧ e.2.fee = 0) ∧
  s.custody = sumActive s.payments + s.accumulatedFees

/-- The operations claim C8 lists as remaining available while paused
(they carry no `whenNotPaused` modifier in the source). -/
def Op.pauseExempt : Op → Bool
  | .refund _ _ _ => true
  | .dispute _ _ => true
  | .release _ _ _ => true
  | .resolve _ _ _ _ => true
  | .approve _ _ => true
  | .withdraw _ _ => true
  | _ => false

end Plain

namespace Swap

/-- The subset of claim C8's pause-available operations that exist in the
swap variant. -/
def Op.pauseExempt : Op → Bool
  | .refund _ _ _ => true
  | .release _ _ _ => true
  | .withdraw _ _ => true
  | _ => false

end Swap

/-- A concrete external order reference used by concrete scenarios. -/
def oidA : String := "order-a"

/-- A concrete merchant URL used by concrete scenarios. -/
def murlA : String := "merchant.example"

/-- The plain-contract state after one concrete deposit from the
constructor state. -/
def c1wState : Plain.EscrowState :=
  match Plain.applyOp (Plain.initState 1 2) (Plain.Op.deposit 3 5 7 100 oidA murlA) with
  | .ok s => s
  | .error _ => Plain.initState 1 2

/-- The swap-contract state after one concrete direct deposit of 100 PYUSD
(fee 1) from the constructor state. -/
def c1cState : Swap.EscrowState :=
  match Swap.applyOp (Swap.initState 1 2) (Swap.Op.deposit 3 5 100 oidA murlA) with
  | .ok s => s
  | .error _ => Swap.initState 1 2

/-- A concrete plain-contract payment id. -/
def cpidA : Plain.PaymentId := ⟨3, oidA, 5, 7⟩

/-- The plain-contract state after one concrete deposit, for the C7
witness. -/
def c7Base : Plain.EscrowState :=
  match Plain.applyOp (Plain.initState 1 2) (Plain.Op.deposit 3 5 7 100 oidA murlA) with
  | .ok s => s
  | .error _ => Plain.initState 1 2

/-- `c7Base` after the admin raises the platform fee to 300 bps. -/
def c7After : Plain.EscrowState :=
  match Plain.setPlatformFee c7Base 1 300 with
  | .ok s => s
  | .error _ => c7Base

/-- A concrete large-payment id for the multi-sig scenario. -/
def c2pid : Plain.PaymentId := ⟨3, oidA, 10, 20⟩

/-- A Pending payment of 2000 PYUSD (above the 1000e6 threshold, so
requiresMultiSig) with no approvals yet. -/
def c2pay : Plain.Payment :=
  { user := 3, amount := 2000000000, fee := 30000000, depositTime := 10,
    status := .Pending, orderId := oidA, merchantUrl := murlA,
    requiresMultiSig := true, approvalCount := 0, hasApproved := [] }

/-- Plain-contract state holding `c2pay` in custody, with two distinct
backend operators 2 and 4 (granted via AccessControl). -/
def c2State : Plain.EscrowState :=
  { paused := false, platformFeeBps := 150, escrowTimeout := 3600,
    multiSigThreshold := 1000000000, accumulatedFees := 0,
    custody := 2030000000, payments := [(c2pid, c2pay)],
    admins := [1], backends := [2, 4] }

/-- `c2State` after backend operator 2's approval. -/
def c2s1 : Plain.EscrowState :=
  match Plain.approvePayment c2State 2 c2pid with
  | .ok s => s
  | .error _ => c2State

/-- The swap-contract payment id derived twice by the C3 scenario. -/
def c3pid : Swap.PaymentId := ⟨3, 10, oidA⟩

/-- Swap-contract state after depositing 100 PYUSD at time 10. -/
def c3s1 : Swap.EscrowState :=
  match Swap.applyOp (Swap.initState 1 2) (Swap.Op.deposit 3 10 100 oidA murlA) with
  | .ok s => s
  | .error _ => Swap.initState 1 2

/-- `c3s1` after a second deposit by the same sender, same orderId, same
block timestamp — the identical keccak preimage, i.e. a forced id
collision. -/
def c3s2 : Swap.EscrowState :=
  match Swap.applyOp c3s1 (Swap.Op.deposit 3 10 200 oidA murlA) with
  | .ok s => s
  | .error _ => c3s1

/-- Plain-contract state after the analogous first deposit (timestamp 10,
block 20). -/
def c3p1 : Plain.EscrowState :=
  match Plain.applyOp (Plain.initState 1 2) (Plain.Op.deposit 3 10 20 100 oidA murlA) with
  | .ok s => s
  | .error _ => Plain.initState 1 2

/-- A Completed payment in the plain contract, for the C6 witness. -/
def c6wPay : Plain.Payment :=
  { user := 3, amount := 100, fee := 1, depositTime := 5,
    status := .Completed, orderId := oidA, merchantUrl := murlA,
    requiresMultiSig := false, approvalCount := 0, hasApproved := [] }

/-- The id of the second, Pending payment in the C6 witness state. -/
def c6wPid2 : Plain.PaymentId := ⟨4, oidA, 6, 8⟩

/-- The second, Pending payment in the C6 witness state. -/
def c6wPay2 : Plain.Payment :=
  { user := 4, amount := 50, fee := 0, depositTime := 6,
    status := .Pending, orderId := oidA, merchantUrl := murlA,
    requiresMultiSig := false, approvalCount := 0, hasApproved := [] }

/-- Plain-contract state holding the Completed `c6wPay` and a second,
Pending payment that operation `c6wOp` refunds. -/
def c6wState : Plain.EscrowState :=
  { paused := false, platformFeeBps := 150, escrowTimeout := 3600,
    multiSigThreshold := 1000000000, accumulatedFees := 1,
    custody := 52, payments := [(cpidA, c6wPay), (c6wPid2, c6wPay2)],
    admins := [1], backends := [2] }

/-- The operation run against `c6wState` in the C6 witness. -/
def c6wOp : Plain.Op := Plain.Op.refund 4 99999 c6wPid2

/-- `c6wState` after `c6wOp`. -/
def c6wState2 : Plain.EscrowState :=
  match Plain.applyOp c6wState c6wOp with
  | .ok s => s
  | .error _ => c6wState

/-- Swap-contract state after deposit(100) at time 0 by user 3. -/
def c6s1 : Swap.EscrowState :=
  match Swap.applyOp (Swap.initState 1 2) (Swap.Op.deposit 3 0 100 oidA murlA) with
  | .ok s => s
  | .error _ => Swap.initState 1 2

/-- `c6s1` after the backend releases that payment (status Completed). -/
def c6s2 : Swap.EscrowState :=
  match Swap.applyOp c6s1 (Swap.Op.release 2 ⟨3, 0, oidA⟩ 7) with
  | .ok s => s
  | .error _ => c6s1

/-- `c6s2` after a colliding deposit (same sender, timestamp, orderId). -/
def c6s3 : Swap.EscrowState :=
  match Swap.applyOp c6s2 (Swap.Op.deposit 3 0 100 oidA murlA) with
  | .ok s => s
  | .error _ => c6s2

/-- A Pending plain-contract payment held by user 3 for the C4/C5
witnesses. -/
def c4pay : Plain.Payment :=
  { user := 3, amount := 100, fee := 1, depositTime := 5,
    status := .Pending, orderId := oidA, merchantUrl := murlA,
    requiresMultiSig := false, approvalCount := 0, hasApproved := [] }

/-- Plain-contract state holding `c4pay` in custody. -/
def c4ps : Plain.EscrowState :=
  { paused := false, platformFeeBps := 150, escrowTimeout := 3600,
    multiSigThreshold := 1000000000, accumulatedFees := 0,
    custody := 101, payments := [(cpidA, c4pay)],
    admins := [1], backends := [2] }

/-- A Pending swap-contract payment held by user 3, its fee already in
accumulatedFees, for the C4/C5/C10 witnesses. -/
def c4spay : Swap.Payment :=
  { user := 3, amount := 100, fee := 1, depositTime := 5,
    status := .Pending, orderId := oidA, merchantUrl := murlA }

/-- The swap-contract id of `c4spay`. -/
def c4spid : Swap.PaymentId := ⟨3, 5, oidA⟩

/-- Swap-contract state holding `c4spay` in custody. -/
def c4ss : Swap.EscrowState :=
  { paused := false, platformFeeBps := 100, escrowTimeout := 3600,
    slippageTolerance := 50, accumulatedFees := 1,
    custody := 101, payments := [(c4spid, c4spay)],
    admins := [1], backends := [2] }

/-- Swap-contract state after the C4 counterexample's deposit of 100
PYUSD (amount 100, fee 1, accumulatedFees 1). -/
def c4cs1 : Swap.EscrowState :=
  match Swap.applyOp (Swap.initState 1 2) (Swap.Op.deposit 3 0 100 oidA murlA) with
  | .ok s => s
  | .error _ => Swap.initState 1 2

/-- `c4cs1` after the backend releases the payment. -/
def c4cs2 : Swap.EscrowState :=
  match Swap.applyOp c4cs1 (Swap.Op.release 2 ⟨3, 0, oidA⟩ 7) with
  | .ok s => s
  | .error _ => c4cs1

/-- Swap-contract state after the C5 counterexample's deposit of 100
PYUSD at time 0 (custody 101, accumulatedFees 1). -/
def c5cs1 : Swap.EscrowState :=
  match Swap.applyOp (Swap.initState 1 2) (Swap.Op.deposit 3 0 100 oidA murlA) with
  | .ok s => s
  | .error _ => Swap.initState 1 2

/-- `c5cs1` after the admin withdraws the accumulated fees (custody 100,
accumulatedFees 0) while the payment is still Pending. -/
def c5cs2 : Swap.EscrowState :=
  match Swap.applyOp c5cs1 (Swap.Op.withdraw 1 9) with
  | .ok s => s
  | .error _ => c5cs1

/-- `c4ps` with the contract paused. -/
def c8psPaused : Plain.EscrowState := Plain.setPaused c4ps true

/-- `c4ss` with the contract paused. -/
def c8ssPaused : Swap.EscrowState := Swap.setPaused c4ss true

/-- `c4ss` after the admin drains the accumulated fees: the Pending
payment's fee (1) now exceeds accumulatedFees (0). -/
def c10ss : Swap.EscrowState :=
  match Swap.applyOp c4ss (Swap.Op.withdraw 1 9) with
  | .ok s => s
  | .error _ => c4ss

theorem AL.getD_store_self {K V : Type} [DecidableEq K] (l : List (K × V)) (k : K) (v d : V) :
    AL.getD (AL.store l k v) k d = v := by
  induction l with
  | nil => simp [AL.store, AL.getD]
  | cons e t ih =>
      obtain ⟨k', v'⟩ := e
      by_cases h : k' = k
      · simp [AL.store, AL.getD, h]
      · simp [AL.store, AL.getD, h, ih]

theorem AL.getD_store_ne {K V : Type} [DecidableEq K] (l : List (K × V)) (k k' : K) (v d : V)
    (h : k' ≠ k) : AL.getD (AL.store l k v) k' d = AL.getD l k' d := by
  have hk : ¬(k = k') := fun h' => h h'.symm
  induction l with
  | nil =>
      simp only [AL.store, AL.getD]
      rw [if_neg hk]
  | cons e t ih =>
      obtain ⟨k0, v0⟩ := e
      by_cases h0 : k0 = k
      · subst h0
        simp [AL.store, AL.getD, hk]
      · simp only [AL.store, if_neg h0, AL.getD]
        by_cases h1 : k0 = k'
        · rw [if_pos h1, if_pos h1]
        · rw [if_neg h1, if_neg h1, ih]

theorem AL.mem_store {K V : Type} [DecidableEq K] (l : List (K × V)) (k : K) (v : V)
    (e : K × V) (he : e ∈ AL.store l k v) : e = (k, v) ∨ e ∈ l := by
  induction l with
  | nil =>
      simp [AL.store] at he
      exact Or.inl he
  | cons e0 t ih =>
      obtain ⟨k0, v0⟩ := e0
      by_cases h0 : k0 = k
      · simp [AL.store, h0] at he
        rcases he with h | h
        · exact Or.inl h
        · exact Or.inr (List.mem_cons_of_mem _ h)
      · simp [AL.store, h0] at he
        rcases he with h | h
        · exact Or.inr (by simp [h])
        · rcases ih h with h' | h'
          · exact Or.inl h'
          · exact Or.inr (List.mem_cons_of_mem _ h')

/-- The stored-value read is either the default or a value bound in the list. -/
theorem AL.getD_mem {K V : Type} [DecidableEq K] (l : List (K × V)) (k : K) (d : V) :
    AL.getD l k d = d ∨ (k, AL.getD l k d) ∈ l := by
  induction l with
  | nil => exact Or.inl rfl
  | cons e t ih =>
      obtain ⟨k0, v0⟩ := e
      by_cases h0 : k0 = k
      · subst h0
        simp [AL.getD]
      · simp [AL.getD, h0]
        rcases ih with h | h
        · exact Or.inl h
        · exact Or.inr (Or.inr h)

/-- Writing one key changes a value-projection sum by exactly the difference
between the new value's projection and the overwritten one's (reading the
overwritten value with a default of projection zero). -/
theorem AL.sumBy_store {K V : Type} [DecidableEq K] (f : V → Nat) (l : List (K × V))
    (k : K) (v d : V) (hd : f d = 0) :
    AL.sumBy f (AL.store l k v) + f (AL.getD l k d) = AL.sumBy f l + f v := by
  induction l with
  | nil => simp [AL.store, AL.getD, AL.sumBy, hd]
  | cons e t ih =>
      obtain ⟨k0, v0⟩ := e
      by_cases h0 : k0 = k
      · simp [AL.store, AL.getD, AL.sumBy, h0]
        omega
      · simp [AL.store, AL.getD, AL.sumBy, h0]
        omega

theorem chk_ok {S : Type} {c : Prop} [Decidable c] {e : Err} {k : Except Err S} {s : S} :
    chk c e k = Except.ok s ↔ c ∧ k = Except.ok s := by
  unfold chk
  split <;> simp_all

theorem isGood_chk {S : Type} {c : Prop} [Decidable c] {e : Err} {k : Except Err S} :
    isGood (chk c e k) = true ↔ c ∧ isGood k = true := by
  unfold chk
  split <;> simp_all [isGood]

theorem chk_error {S : Type} {c : Prop} [Decidable c] {e e' : Err} {k : Except Err S} :
    chk c e k = Except.error e' ↔ ((¬c ∧ e = e') ∨ (c ∧ k = Except.error e')) := by
  unfold chk
  split <;> simp_all

theorem chk_map {S T : Type} {c : Prop} [Decidable c] {e : Err} {k : Except Err S}
    (f : S → T) : (chk c e k).map f = chk c e (k.map f) := by
  unfold chk
  split <;> simp [Except.map]

namespace Plain

theorem contribA_zero : contribA zeroPayment = 0 := rfl

theorem contribA_of_zero (p : Payment) (h1 : p.amount = 0) (h2 : p.fee = 0) :
    contribA p = 0 := by
  unfold contribA
  split <;> simp [h1, h2]

theorem contribA_active (p : Payment) (h : isActive p.status = true) :
    contribA p = p.amount + p.fee := by
  unfold contribA
  rw [h]
  rfl

theorem contribA_inactive (p : Payment) (h : isActive p.status = false) :
    contribA p = 0 := by
  unfold contribA
  rw [h]
  rfl

theorem sumActive_store (l : List (PaymentId × Payment)) (k : PaymentId) (v : Payment) :
    sumActive (AL.store l k v) + contribA (AL.getD l k zeroPayment)
      = sumActive l + contribA v :=
  AL.sumBy_store contribA l k v zeroPayment contribA_zero

theorem contribA_getD_zero_user {s : EscrowState} (pid : PaymentId)
    (hI : Inv s) (hu : (AL.getD s.payments pid zeroPayment).user = 0) :
    contribA (AL.getD s.payments pid zeroPayment) = 0 := by
  rcases AL.getD_mem s.payments pid zeroPayment with h | h
  · rw [h]; exact contribA_zero
  · obtain ⟨h1, h2⟩ := hI.1 _ h hu
    exact contribA_of_zero _ h1 h2

theorem inv_deposit {s s' : EscrowState} {snd now bn amt : Nat} {oid murl : String}
    (hz : snd ≠ 0) (hI : Inv s)
    (h : depositPayment s snd now bn amt oid murl = .ok s') : Inv s' := by
  unfold depositPayment at h
  simp only [chk_ok, Except.ok.injEq] at h
  obtain ⟨hp, ha, ho, hc, hok⟩ := h
  subst hok
  constructor
  · intro e he hu
    rcases AL.mem_store _ _ _ e he with h | h
    · rw [h] at hu
      exact absurd hu hz
    · exact hI.1 e h hu
  · have hsum := sumActive_store s.payments ⟨snd, oid, now, bn⟩
      { user := snd, amount := amt, fee := feeOn s.platformFeeBps amt,
        depositTime := now, status := .Pending, orderId := oid,
        merchantUrl := murl,
        requiresMultiSig := decide (s.multiSigThreshold ≤ amt),
        approvalCount := 0, hasApproved := [] }
    have hold := contribA_getD_zero_user _ hI hc
    have hnew : contribA
        { user := snd, amount := amt, fee := feeOn s.platformFeeBps amt,
          depositTime := now, status := .Pending, orderId := oid,
          merchantUrl := murl,
          requiresMultiSig := decide (s.multiSigThreshold ≤ amt),
          approvalCount := 0, hasApproved := [] }
        = amt + feeOn s.platformFeeBps amt := contribA_active _ rfl
    have hc2 := hI.2
    simp only [sumActive] at hsum hc2 ⊢
    omega

theorem inv_release {s s' : EscrowState} {snd r : Nat} {pid : PaymentId}
    (hI : Inv s) (h : releasePayment s snd pid r = .ok s') : Inv s' := by
  unfold releasePayment at h
  simp only [chk_ok, Except.ok.injEq] at h
  obtain ⟨hb, hst, hr, hms, hcu, hok⟩ := h
  subst hok
  constructor
  · intro e he hu
    rcases AL.mem_store _ _ _ e he with h | h
    · have hu' : (AL.getD s.payments pid zeroPayment).user = 0 := by
        rw [h] at hu
        exact hu
      have hz : (AL.getD s.payments pid zeroPayment).amount = 0 ∧
          (AL.getD s.payments pid zeroPayment).fee = 0 := by
        rcases AL.getD_mem s.payments pid zeroPayment with h0 | h0
        · rw [h0]
          exact ⟨rfl, rfl⟩
        · exact hI.1 _ h0 hu'
      rw [h]
      exact hz
    · exact hI.1 e h hu
  · have hsum := sumActive_store s.payments pid
      { AL.getD s.payments pid zeroPayment with status := .Completed }
    have hact : isActive (AL.getD s.payments pid zeroPayment).status = true := by
      rcases hst with h | h <;> rw [h] <;> rfl
    have hold := contribA_active _ hact
    have hnew : contribA { AL.getD s.payments pid zeroPayment with status := .Completed }
        = 0 := contribA_inactive _ rfl
    have hc2 := hI.2
    rw [hold, hnew] at hsum
    dsimp only
    simp only [sumActive] at hsum hc2 ⊢
    omega

theorem ghost_clause {s : EscrowState} (pid : PaymentId) (q : Payment)
    (hI : Inv s)
    (hq1 : q.user = (AL.getD s.payments pid zeroPayment).user)
    (hq2 : q.amount = (AL.getD s.payments pid zeroPayment).amount)
    (hq3 : q.fee = (AL.getD s.payments pid zeroPayment).fee)
    (e : PaymentId × Payment) (he : e ∈ AL.store s.payments pid q)
    (hu : e.2.user = 0) : e.2.amount = 0 ∧ e.2.fee = 0 := by
  rcases AL.mem_store _ _ _ e he with h | h
  · have hu' : (AL.getD s.payments pid zeroPayment).user = 0 := by
      rw [h] at hu
      rw [← hq1]
      exact hu
    have hz : (AL.getD s.payments pid zeroPayment).amount = 0 ∧
        (AL.getD s.payments pid zeroPayment).fee = 0 := by
      rcases AL.getD_mem s.payments pid zeroPayment with h0 | h0
      · rw [h0]
        exact ⟨rfl, rfl⟩
      · exact hI.1 _ h0 hu'
    rw [h]
    exact ⟨by rw [hq2]; exact hz.1, by rw [hq3]; exact hz.2⟩
  · exact hI.1 e h hu

theorem inv_refund {s s' : EscrowState} {snd now : Nat} {pid : PaymentId}
    (hI : Inv s) (h : refundPayment s snd now pid = .ok s') : Inv s' := by
  unfold refundPayment at h
  simp only [chk_ok, Except.ok.injEq] at h
  obtain ⟨hown, hst, ht, hcu, hok⟩ := h
  subst hok
  constructor
  · exact ghost_clause pid _ hI rfl rfl rfl
  · have hsum := sumActive_store s.payments pid
      { AL.getD s.payments pid zeroPayment with status := .Refunded }
    have hact : isActive (AL.getD s.payments pid zeroPayment).status = true := by
      rcases hst with h | h <;> rw [h] <;> rfl
    have hold := contribA_active _ hact
    have hnew : contribA { AL.getD s.payments pid zeroPayment with status := .Refunded }
        = 0 := contribA_inactive _ rfl
    have hc2 := hI.2
    rw [hold, hnew] at hsum
    dsimp only
    simp only [sumActive] at hsum hc2 ⊢
    omega

theorem inv_opRefund {s s' : EscrowState} {snd : Nat} {pid : PaymentId}
    (hI : Inv s) (h : initiateRefund s snd pid = .ok s') : Inv s' := by
  unfold initiateRefund at h
  simp only [chk_ok, Except.ok.injEq] at h
  obtain ⟨hb, hst, hcu, hok⟩ := h
  subst hok
  constructor
  · exact ghost_clause pid _ hI rfl rfl rfl
  · have hsum := sumActive_store s.payments pid
      { AL.getD s.payments pid zeroPayment with status := .Refunded }
    have hact : isActive (AL.getD s.payments pid zeroPayment).status = true := by
      rcases hst with h | h <;> rw [h] <;> rfl
    have hold := contribA_active _ hact
    have hnew : contribA { AL.getD s.payments pid zeroPayment with status := .Refunded }
        = 0 := contribA_inactive _ rfl
    have hc2 := hI.2
    rw [hold, hnew] at hsum
    dsimp only
    simp only [sumActive] at hsum hc2 ⊢
    omega

theorem inv_approve {s s' : EscrowState} {snd : Nat} {pid : PaymentId}
    (hI : Inv s) (h : approvePayment s snd pid = .ok s') : Inv s' := by
  unfold approvePayment at h
  simp only [chk_ok, Except.ok.injEq] at h
  obtain ⟨hb, hst, hms, hna, hok⟩ := h
  subst hok
  constructor
  · exact ghost_clause pid _ hI rfl rfl rfl
  · have hsum := sumActive_store s.payments pid
      { AL.getD s.payments pid zeroPayment with
        hasApproved := snd :: (AL.getD s.payments pid zeroPayment).hasApproved,
        approvalCount := (AL.getD s.payments pid zeroPayment).approvalCount + 1,
        status := if (AL.getD s.payments pid zeroPayment).approvalCount + 1 = 1
                  then .Processing
                  else (AL.getD s.payments pid zeroPayment).status }
    have hact : isActive (AL.getD s.payments pid zeroPayment).status = true := by
      rw [hst]
      rfl
    have hold := contribA_active _ hact
    have hact2 : isActive
        (if (AL.getD s.payments pid zeroPayment).approvalCount + 1 = 1
         then PaymentStatus.Processing
         else (AL.getD s.payments pid zeroPayment).status) = true := by
      split
      · rfl
      · rw [hst]
        rfl
    have hnew := contribA_active
      { AL.getD s.payments pid zeroPayment with
        hasApproved := snd :: (AL.getD s.payments pid zeroPayment).hasApproved,
        approvalCount := (AL.getD s.payments pid zeroPayment).approvalCount + 1,
        status := if (AL.getD s.payments pid zeroPayment).approvalCount + 1 = 1
                  then .Processing
                  else (AL.getD s.payments pid zeroPayment).status } hact2
    have hc2 := hI.2
    rw [hold, hnew] at hsum
    dsimp only
    simp only [sumActive] at hsum hc2 ⊢
    omega

theorem inv_dispute {s s' : EscrowState} {snd : Nat} {pid : PaymentId}
    (hI : Inv s) (h : raiseDispute s snd pid = .ok s') : Inv s' := by
  unfold raiseDispute at h
  simp only [chk_ok, Except.ok.injEq] at h
  obtain ⟨hauth, hst, hok⟩ := h
  subst hok
  constructor
  · exact ghost_clause pid _ hI rfl rfl rfl
  · have hsum := sumActive_store s.payments pid
      { AL.getD s.payments pid zeroPayment with status := .Disputed }
    have hact : isActive (AL.getD s.payments pid zeroPayment).status = true := by
      rcases hst with h | h <;> rw [h] <;> rfl
    have hold := contribA_active _ hact
    have hnew : contribA { AL.getD s.payments pid zeroPayment with status := .Disputed }
        = (AL.getD s.payments pid zeroPayment).amount +
          (AL.getD s.payments pid zeroPayment).fee := contribA_active _ rfl
    have hc2 := hI.2
    rw [hold, hnew] at hsum
    dsimp only
    simp only [sumActive] at hsum hc2 ⊢
    omega

theorem inv_resolve {s s' : EscrowState} {snd r : Nat} {pid : PaymentId} {rtu : Bool}
    (hI : Inv s) (h : resolveDispute s snd pid rtu r = .ok s') : Inv s' := by
  unfold resolveDispute at h
  cases rtu with
  | true =>
      simp only [chk_ok, Except.ok.injEq] at h
      obtain ⟨ha, hst, hr, hcu, hok⟩ := h
      subst hok
      constructor
      · exact ghost_clause pid _ hI rfl rfl rfl
      · have hsum := sumActive_store s.payments pid
          { AL.getD s.payments pid zeroPayment with status := .Refunded }
        have hold := contribA_active (AL.getD s.payments pid zeroPayment)
          (by rw [hst]; rfl)
        have hnew : contribA
            { AL.getD s.payments pid zeroPayment with status := .Refunded } = 0 :=
          contribA_inactive _ rfl
        have hc2 := hI.2
        rw [hold, hnew] at hsum
        dsimp only
        simp only [sumActive] at hsum hc2 ⊢
        omega
  | false =>
      simp only [chk_ok, Except.ok.injEq] at h
      obtain ⟨ha, hst, hr, hcu, hok⟩ := h
      subst hok
      constructor
      · exact ghost_clause pid _ hI rfl rfl rfl
      · have hsum := sumActive_store s.payments pid
          { AL.getD s.payments pid zeroPayment with status := .Completed }
        have hold := contribA_active (AL.getD s.payments pid zeroPayment)
          (by rw [hst]; rfl)
        have hnew : contribA
            { AL.getD s.payments pid zeroPayment with status := .Completed } = 0 :=
          contribA_inactive _ rfl
        have hc2 := hI.2
        rw [hold, hnew] at hsum
        dsimp only
        simp only [sumActive] at hsum hc2 ⊢
        omega

theorem inv_withdraw {s s' : EscrowState} {snd dest : Nat}
    (hI : Inv s) (h : withdrawFees s snd dest = .ok s') : Inv s' := by
  unfold withdrawFees at h
  simp only [chk_ok, Except.ok.injEq] at h
  obtain ⟨ha, hd, hpos, hcu, hok⟩ := h
  subst hok
  refine ⟨hI.1, ?_⟩
  have hc2 := hI.2
  dsimp only
  omega

theorem inv_frame {s s' : EscrowState}
    (hI : Inv s) (hp : s'.payments = s.payments) (hc : s'.custody = s.custody)
    (hf : s'.accumulatedFees = s.accumulatedFees) : Inv s' := by
  refine ⟨?_, ?_⟩
  · rw [hp]
    exact hI.1
  · rw [hp, hc, hf]
    exact hI.2

theorem inv_setFee {s s' : EscrowState} {snd bps : Nat}
    (hI : Inv s) (h : setPlatformFee s snd bps = .ok s') : Inv s' := by
  unfold setPlatformFee at h
  simp only [chk_ok, Except.ok.injEq] at h
  obtain ⟨ha, hb, hok⟩ := h
  subst hok
  exact inv_frame hI rfl rfl rfl

theorem inv_setTimeout {s s' : EscrowState} {snd t : Nat}
    (hI : Inv s) (h : setEscrowTimeout s snd t = .ok s') : Inv s' := by
  unfold setEscrowTimeout at h
  simp only [chk_ok, Except.ok.injEq] at h
  obtain ⟨ha, hb, hok⟩ := h
  subst hok
  exact inv_frame hI rfl rfl rfl

theorem inv_setThreshold {s s' : EscrowState} {snd t : Nat}
    (hI : Inv s) (h : setMultiSigThreshold s snd t = .ok s') : Inv s' := by
  unfold setMultiSigThreshold at h
  simp only [chk_ok, Except.ok.injEq] at h
  obtain ⟨ha, hok⟩ := h
  subst hok
  exact inv_frame hI rfl rfl rfl

theorem inv_pause {s s' : EscrowState} {snd : Nat}
    (hI : Inv s) (h : pause s snd = .ok s') : Inv s' := by
  unfold pause at h
  simp only [chk_ok, Except.ok.injEq] at h
  obtain ⟨ha, hb, hok⟩ := h
  subst hok
  exact inv_frame hI rfl rfl rfl

theorem inv_unpause {s s' : EscrowState} {snd : Nat}
    (hI : Inv s) (h : unpause s snd = .ok s') : Inv s' := by
  unfold unpause at h
  simp only [chk_ok, Except.ok.injEq] at h
  obtain ⟨ha, hb, hok⟩ := h
  subst hok
  exact inv_frame hI rfl rfl rfl

/-- Every reachable PaymentEscrow state satisfies the conservation
invariant (and its ghost-slot side condition). -/
theorem reachable_inv {d b : Nat} {s : EscrowState} (h : Reachable d b s) : Inv s := by
  induction h with
  | init =>
      exact ⟨by intro e he; simp [initState] at he, rfl⟩
  | step o hr hz happ ih =>
      cases o with
      | deposit snd now bn amt oid murl => exact inv_deposit hz ih happ
      | release snd pid r => exact inv_release ih happ
      | refund snd now pid => exact inv_refund ih happ
      | opRefund snd pid => exact inv_opRefund ih happ
      | approve snd pid => exact inv_approve ih happ
      | dispute snd pid => exact inv_dispute ih happ
      | resolve snd pid rtu r => exact inv_resolve ih happ
      | withdraw snd dest => exact inv_withdraw ih happ
      | setFee snd bps => exact inv_setFee ih happ
      | setTimeout snd t => exact inv_setTimeout ih happ
      | setThreshold snd t => exact inv_setThreshold ih happ
      | doPause snd => exact inv_pause ih happ
      | doUnpause snd => exact inv_unpause ih happ

theorem release_pause_free (s : EscrowState) (b : Bool) (snd r : Nat) (pid : PaymentId) :
    releasePayment (setPaused s b) snd pid r
      = (releasePayment s snd pid r).map (fun t => setPaused t b) := by
  unfold releasePayment setPaused
  dsimp only
  rw [chk_map, chk_map, chk_map, chk_map, chk_map]
  rfl

theorem refund_pause_free (s : EscrowState) (b : Bool) (snd now : Nat) (pid : PaymentId) :
    refundPayment (setPaused s b) snd now pid
      = (refundPayment s snd now pid).map (fun t => setPaused t b) := by
  unfold refundPayment setPaused
  dsimp only
  rw [chk_map, chk_map, chk_map, chk_map]
  rfl

theorem approve_pause_free (s : EscrowState) (b : Bool) (snd : Nat) (pid : PaymentId) :
    approvePayment (setPaused s b) snd pid
      = (approvePayment s snd pid).map (fun t => setPaused t b) := by
  unfold approvePayment setPaused
  dsimp only
  rw [chk_map, chk_map, chk_map, chk_map]
  rfl

theorem dispute_pause_free (s : EscrowState) (b : Bool) (snd : Nat) (pid : PaymentId) :
    raiseDispute (setPaused s b) snd pid
      = (raiseDispute s snd pid).map (fun t => setPaused t b) := by
  unfold raiseDispute setPaused
  dsimp only
  rw [chk_map, chk_map]
  rfl

theorem resolve_pause_free (s : EscrowState) (b : Bool) (snd r : Nat) (pid : PaymentId)
    (rtu : Bool) :
    resolveDispute (setPaused s b) snd pid rtu r
      = (resolveDispute s snd pid rtu r).map (fun t => setPaused t b) := by
  unfold resolveDispute setPaused
  cases rtu <;> (dsimp only; rw [chk_map, chk_map, chk_map, chk_map]; rfl)

theorem withdraw_pause_free (s : EscrowState) (b : Bool) (snd dest : Nat) :
    withdrawFees (setPaused s b) snd dest
      = (withdrawFees s snd dest).map (fun t => setPaused t b) := by
  unfold withdrawFees setPaused
  dsimp only
  rw [chk_map, chk_map, chk_map, chk_map]
  rfl

end Plain

namespace Swap

theorem releaseS_pause_free (s : EscrowState) (b : Bool) (snd r : Nat) (pid : PaymentId) :
    releasePayment (setPaused s b) snd pid r
      = (releasePayment s snd pid r).map (fun t => setPaused t b) := by
  unfold releasePayment setPaused
  dsimp only
  rw [chk_map, chk_map, chk_map, chk_map]
  rfl

theorem refundS_pause_free (s : EscrowState) (b : Bool) (snd now : Nat) (pid : PaymentId) :
    refundPayment (setPaused s b) snd now pid
      = (refundPayment s snd now pid).map (fun t => setPaused t b) := by
  unfold refundPayment setPaused
  dsimp only
  rw [chk_map, chk_map, chk_map, chk_map, chk_map]
  rfl

theorem withdrawS_pause_free (s : EscrowState) (b : Bool) (snd dest : Nat) :
    withdrawFees (setPaused s b) snd dest
      = (withdrawFees s snd dest).map (fun t => setPaused t b) := by
  unfold withdrawFees setPaused
  dsimp only
  rw [chk_map, chk_map, chk_map, chk_map]
  rfl

end Swap

namespace Plain

/-- A successful PaymentEscrow operation leaves any stored payment with a
nonzero user (one created by a deposit) untouched once its status is
terminal, and only ever moves such a payment's status along an edge of
the §4.4 graph. -/
theorem mono_step {s s' : EscrowState} {o : Op} (pid : PaymentId)
    (hu : (AL.getD s.payments pid zeroPayment).user ≠ 0)
    (h : applyOp s o = .ok s') :
    (isActive (AL.getD s.payments pid zeroPayment).status = false →
       AL.getD s'.payments pid zeroPayment = AL.getD s.payments pid zeroPayment) ∧
    ((AL.getD s'.payments pid zeroPayment).status
        = (AL.getD s.payments pid zeroPayment).status ∨
     stepOK (AL.getD s.payments pid zeroPayment).status
       (AL.getD s'.payments pid zeroPayment).status = true) := by
  cases o with
  | deposit snd now bn amt oid murl =>
      unfold applyOp depositPayment at h
      simp only [chk_ok, Except.ok.injEq] at h
      obtain ⟨hp, ha, ho, hc, hok⟩ := h
      subst hok
      dsimp only
      by_cases hk : (⟨snd, oid, now, bn⟩ : PaymentId) = pid
      · rw [hk] at hc
        exact absurd hc hu
      · rw [AL.getD_store_ne _ _ _ _ _ (fun hh => hk hh.symm)]
        exact ⟨fun _ => rfl, Or.inl rfl⟩
  | release snd pid0 r =>
      unfold applyOp releasePayment at h
      simp only [chk_ok, Except.ok.injEq] at h
      obtain ⟨hb, hst, hr0, hms, hcu, hok⟩ := h
      subst hok
      dsimp only
      by_cases hk : pid0 = pid
      · subst hk
        rw [AL.getD_store_self]
        constructor
        · intro hterm
          rcases hst with h | h <;> rw [h] at hterm <;> exact absurd hterm (by decide)
        · right
          dsimp only
          rcases hst with h | h <;> rw [h] <;> rfl
      · rw [AL.getD_store_ne _ _ _ _ _ (fun hh => hk hh.symm)]
        exact ⟨fun _ => rfl, Or.inl rfl⟩
  | refund snd now pid0 =>
      unfold applyOp refundPayment at h
      simp only [chk_ok, Except.ok.injEq] at h
      obtain ⟨hown, hst, ht, hcu, hok⟩ := h
      subst hok
      dsimp only
      by_cases hk : pid0 = pid
      · subst hk
        rw [AL.getD_store_self]
        constructor
        · intro hterm
          rcases hst with h | h <;> rw [h] at hterm <;> exact absurd hterm (by decide)
        · right
          dsimp only
          rcases hst with h | h <;> rw [h] <;> rfl
      · rw [AL.getD_store_ne _ _ _ _ _ (fun hh => hk hh.symm)]
        exact ⟨fun _ => rfl, Or.inl rfl⟩
  | opRefund snd pid0 =>
      unfold applyOp initiateRefund at h
      simp only [chk_ok, Except.ok.injEq] at h
      obtain ⟨hb, hst, hcu, hok⟩ := h
      subst hok
      dsimp only
      by_cases hk : pid0 = pid
      · subst hk
        rw [AL.getD_store_self]
        constructor
        · intro hterm
          rcases hst with h | h <;> rw [h] at hterm <;> exact absurd hterm (by decide)
        · right
          dsimp only
          rcases hst with h | h <;> rw [h] <;> rfl
      · rw [AL.getD_store_ne _ _ _ _ _ (fun hh => hk hh.symm)]
        exact ⟨fun _ => rfl, Or.inl rfl⟩
  | approve snd pid0 =>
      unfold applyOp approvePayment at h
      simp only [chk_ok, Except.ok.injEq] at h
      obtain ⟨hb, hst, hms, hna, hok⟩ := h
      subst hok
      dsimp only
      by_cases hk : pid0 = pid
      · subst hk
        rw [AL.getD_store_self]
        constructor
        · intro hterm
          rw [hst] at hterm
          exact absurd hterm (by decide)
        · dsimp only
          by_cases hc1 : (AL.getD s.payments pid0 zeroPayment).approvalCount + 1 = 1
          · rw [if_pos hc1]
            right
            rw [hst]
            rfl
          · rw [if_neg hc1]
            left
            rfl
      · rw [AL.getD_store_ne _ _ _ _ _ (fun hh => hk hh.symm)]
        exact ⟨fun _ => rfl, Or.inl rfl⟩
  | dispute snd pid0 =>
      unfold applyOp raiseDispute at h
      simp only [chk_ok, Except.ok.injEq] at h
      obtain ⟨hauth, hst, hok⟩ := h
      subst hok
      dsimp only
      by_cases hk : pid0 = pid
      · subst hk
        rw [AL.getD_store_self]
        constructor
        · intro hterm
          rcases hst with h | h <;> rw [h] at hterm <;> exact absurd hterm (by decide)
        · right
          dsimp only
          rcases hst with h | h <;> rw [h] <;> rfl
      · rw [AL.getD_store_ne _ _ _ _ _ (fun hh => hk hh.symm)]
        exact ⟨fun _ => rfl, Or.inl rfl⟩
  | resolve snd pid0 rtu r =>
      unfold applyOp resolveDispute at h
      cases rtu with
      | true =>
          simp only [chk_ok, Except.ok.injEq] at h
          obtain ⟨ha, hst, hr0, hcu, hok⟩ := h
          subst hok
          dsimp only
          by_cases hk : pid0 = pid
          · subst hk
            rw [AL.getD_store_self]
            constructor
            · intro hterm
              rw [hst] at hterm
              exact absurd hterm (by decide)
            · right
              dsimp only
              rw [hst]
              rfl
          · rw [AL.getD_store_ne _ _ _ _ _ (fun hh => hk hh.symm)]
            exact ⟨fun _ => rfl, Or.inl rfl⟩
      | false =>
          simp only [chk_ok, Except.ok.injEq] at h
          obtain ⟨ha, hst, hr0, hcu, hok⟩ := h
          subst hok
          dsimp only
          by_cases hk : pid0 = pid
          · subst hk
            rw [AL.getD_store_self]
            constructor
            · intro hterm
              rw [hst] at hterm
              exact absurd hterm (by decide)
            · right
              dsimp only
              rw [hst]
              rfl
          · rw [AL.getD_store_ne _ _ _ _ _ (fun hh => hk hh.symm)]
            exact ⟨fun _ => rfl, Or.inl rfl⟩
  | withdraw snd dest =>
      unfold applyOp withdrawFees at h
      simp only [chk_ok, Except.ok.injEq] at h
      obtain ⟨ha, hd, hpos, hcu, hok⟩ := h
      subst hok
      exact ⟨fun _ => rfl, Or.inl rfl⟩
  | setFee snd bps =>
      unfold applyOp setPlatformFee at h
      simp only [chk_ok, Except.ok.injEq] at h
      obtain ⟨ha, hb, hok⟩ := h
      subst hok
      exact ⟨fun _ => rfl, Or.inl rfl⟩
  | setTimeout snd t =>
      unfold applyOp setEscrowTimeout at h
      simp only [chk_ok, Except.ok.injEq] at h
      obtain ⟨ha, hb, hok⟩ := h
      subst hok
      exact ⟨fun _ => rfl, Or.inl rfl⟩
  | setThreshold snd t =>
      unfold applyOp setMultiSigThreshold at h
      simp only [chk_ok, Except.ok.injEq] at h
      obtain ⟨ha, hok⟩ := h
      subst hok
      exact ⟨fun _ => rfl, Or.inl rfl⟩
  | doPause snd =>
      unfold applyOp pause at h
      simp only [chk_ok, Except.ok.injEq] at h
      obtain ⟨ha, hb, hok⟩ := h
      subst hok
      exact ⟨fun _ => rfl, Or.inl rfl⟩
  | doUnpause snd =>
      unfold applyOp unpause at h
      simp only [chk_ok, Except.ok.injEq] at h
      obtain ⟨ha, hb, hok⟩ := h
      subst hok
      exact ⟨fun _ => rfl, Or.inl rfl⟩

/-- resolveDispute never succeeds on a payment whose status is already
terminal (Completed or Refunded). -/
theorem resolve_terminal_fails {s s2 : EscrowState} (a r : Nat) (pid : PaymentId)
    (rtu : Bool)
    (hterm : isActive (AL.getD s.payments pid zeroPayment).status = false)
    (h : resolveDispute s a pid rtu r = .ok s2) : False := by
  unfold resolveDispute at h
  cases rtu with
  | true =>
      simp only [chk_ok, Except.ok.injEq] at h
      obtain ⟨_, hst, _⟩ := h
      rw [hst] at hterm
      exact absurd hterm (by decide)
  | false =>
      simp only [chk_ok, Except.ok.injEq] at h
      obtain ⟨_, hst, _⟩ := h
      rw [hst] at hterm
      exact absurd hterm (by decide)

end Plain

/-- C1, amended: the conservation equation
`custody = Σ (amount+fee) over Pending/Processing/Disputed + accumulatedFees`
holds at every state of the plain PaymentEscrow contract reachable by
successful operations.  (As claimed — over both contracts — it is false:
PaymentEscrowWithSwap adds the fee to accumulatedFees already at deposit,
see the counterexample.) -/
theorem C1_conservation_plain {d b : Nat} {s : Plain.EscrowState}
    (h : Plain.Reachable d b s) :
    s.custody = Plain.sumActive s.payments + s.accumulatedFees :=
  (Plain.reachable_inv h).2

theorem C1_conservation_plain_witness :
    Plain.Reachable 1 2 c1wState ∧
    c1wState.custody = Plain.sumActive c1wState.payments + c1wState.accumulatedFees := by
  have hr : Plain.Reachable 1 2 c1wState :=
    Plain.Reachable.step (Plain.Op.deposit 3 5 7 100 oidA murlA)
      Plain.Reachable.init (by decide) (by rfl)
  exact ⟨hr, C1_conservation_plain hr⟩

/-- C1 counterexample: after a single successful direct deposit on
PaymentEscrowWithSwap, custody is 101 but the claim's formula gives
101 + 1 = 102, because the fee already sits in accumulatedFees while the
payment is still Pending. -/
theorem C1_conservation_cex :
    Swap.Reachable 1 2 c1cState ∧
    c1cState.custody ≠ Swap.sumActive c1cState.payments + c1cState.accumulatedFees := by
  constructor
  · exact Swap.Reachable.step (Swap.Op.deposit 3 5 100 oidA murlA)
      Swap.Reachable.init (by decide) (by rfl)
  · decide

/-- C7: a successful setPlatformFee call changes only the global fee rate:
the payments ledger is untouched, so every existing payment's recorded
fee and amount are exactly what they were before the call. -/
theorem C7_setFee_frame {s s' : Plain.EscrowState} {snd bps : Nat}
    (pid : Plain.PaymentId) (h : Plain.setPlatformFee s snd bps = .ok s') :
    s'.payments = s.payments ∧
    (AL.getD s'.payments pid Plain.zeroPayment).fee
      = (AL.getD s.payments pid Plain.zeroPayment).fee ∧
    (AL.getD s'.payments pid Plain.zeroPayment).amount
      = (AL.getD s.payments pid Plain.zeroPayment).amount := by
  unfold Plain.setPlatformFee at h
  simp only [chk_ok, Except.ok.injEq] at h
  obtain ⟨ha, hb, hok⟩ := h
  subst hok
  exact ⟨rfl, rfl, rfl⟩

theorem C7_setFee_frame_witness :
    c7After.payments = c7Base.payments ∧
    (AL.getD c7After.payments cpidA Plain.zeroPayment).fee
      = (AL.getD c7Base.payments cpidA Plain.zeroPayment).fee ∧
    (AL.getD c7After.payments cpidA Plain.zeroPayment).amount
      = (AL.getD c7Base.payments cpidA Plain.zeroPayment).amount :=
  @C7_setFee_frame c7Base c7After 1 300 cpidA (by rfl)

/-- C2 is a code bug: release of the requiresMultiSig payment correctly
fails with the multi-sig error while approvalCount < 2, and the first
approval succeeds (count 1, status moves to Processing) — but the second
distinct operator's approvePayment then reverts with "Invalid status",
because approvePayment requires status Pending while the first approval
already moved it to Processing.  approvalCount can therefore never reach
2 and releasePayment of any multi-sig payment can never succeed. -/
theorem C2_multisig_deadlock :
    Plain.releasePayment c2State 2 c2pid 9 = .error .multiSigRequired ∧
    Plain.approvePayment c2State 2 c2pid = .ok c2s1 ∧
    (AL.getD c2s1.payments c2pid Plain.zeroPayment).status = .Processing ∧
    (AL.getD c2s1.payments c2pid Plain.zeroPayment).approvalCount = 1 ∧
    Plain.approvePayment c2s1 4 c2pid = .error .invalidStatus ∧
    Plain.releasePayment c2s1 4 c2pid 9 = .error .multiSigRequired := by
  decide

/-- C3 is a code bug in PaymentEscrowWithSwap: its depositPayment has no
collision check, so a second deposit deriving the same paymentId succeeds
and silently overwrites the existing record (amount 100 becomes 200, one
ledger entry), stranding the first deposit's custody; the plain contract
rejects the identical collision with "Payment ID collision". -/
theorem C3_collision_overwrite :
    Swap.applyOp (Swap.initState 1 2) (Swap.Op.deposit 3 10 100 oidA murlA) = .ok c3s1 ∧
    (AL.getD c3s1.payments c3pid Swap.zeroPayment).amount = 100 ∧
    Swap.applyOp c3s1 (Swap.Op.deposit 3 10 200 oidA murlA) = .ok c3s2 ∧
    (AL.getD c3s2.payments c3pid Swap.zeroPayment).amount = 200 ∧
    c3s2.payments.length = 1 ∧
    Plain.applyOp c3p1 (Plain.Op.deposit 3 10 20 500 oidA murlA) = .error .collision := by
  decide

/-- C6, amended (plain contract part): for any stored payment created by a
deposit (nonzero user), a successful operation never changes the record
once its status is terminal, every status change follows an edge of the
§4.4 graph, and resolveDispute never succeeds on an already-resolved
payment.  (As claimed — over both contracts — the terminal-freeze is
false: see the counterexample, where a colliding swap-variant deposit
resets a Completed payment to Pending.) -/
theorem C6_status_monotone_plain {s s' : Plain.EscrowState} {o : Plain.Op}
    (pid : Plain.PaymentId) (s2 : Plain.EscrowState) (a r : Nat) (rtu : Bool)
    (hu : (AL.getD s.payments pid Plain.zeroPayment).user ≠ 0)
    (h : Plain.applyOp s o = .ok s') :
    (isActive (AL.getD s.payments pid Plain.zeroPayment).status = false →
       AL.getD s'.payments pid Plain.zeroPayment
         = AL.getD s.payments pid Plain.zeroPayment) ∧
    ((AL.getD s'.payments pid Plain.zeroPayment).status
        = (AL.getD s.payments pid Plain.zeroPayment).status ∨
     stepOK (AL.getD s.payments pid Plain.zeroPayment).status
       (AL.getD s'.payments pid Plain.zeroPayment).status = true) ∧
    (isActive (AL.getD s.payments pid Plain.zeroPayment).status = false →
       Plain.resolveDispute s a pid rtu r ≠ .ok s2) := by
  obtain ⟨h1, h2⟩ := Plain.mono_step pid hu h
  exact ⟨h1, h2, fun hterm hok => Plain.resolve_terminal_fails a r pid rtu hterm hok⟩

theorem C6_status_monotone_plain_witness :
    (isActive (AL.getD c6wState.payments cpidA Plain.zeroPayment).status = false →
       AL.getD c6wState2.payments cpidA Plain.zeroPayment
         = AL.getD c6wState.payments cpidA Plain.zeroPayment) ∧
    ((AL.getD c6wState2.payments cpidA Plain.zeroPayment).status
        = (AL.getD c6wState.payments cpidA Plain.zeroPayment).status ∨
     stepOK (AL.getD c6wState.payments cpidA Plain.zeroPayment).status
       (AL.getD c6wState2.payments cpidA Plain.zeroPayment).status = true) ∧
    (isActive (AL.getD c6wState.payments cpidA Plain.zeroPayment).status = false →
       Plain.resolveDispute c6wState 1 cpidA true 9 ≠ .ok c6wState2) :=
  @C6_status_monotone_plain c6wState c6wState2 c6wOp cpidA c6wState2 1 9 true
    (by decide) (by rfl)

/-- C6 counterexample: in PaymentEscrowWithSwap a payment that has reached
the terminal status Completed is reset to Pending by a subsequent
colliding deposit — the observed status sequence
Pending, Completed, Pending leaves the §4.4 graph. -/
theorem C6_status_monotone_cex :
    Swap.applyOp (Swap.initState 1 2) (Swap.Op.deposit 3 0 100 oidA murlA) = .ok c6s1 ∧
    Swap.applyOp c6s1 (Swap.Op.release 2 ⟨3, 0, oidA⟩ 7) = .ok c6s2 ∧
    (AL.getD c6s2.payments ⟨3, 0, oidA⟩ Swap.zeroPayment).status = .Completed ∧
    (AL.getD c6s2.payments ⟨3, 0, oidA⟩ Swap.zeroPayment).user ≠ 0 ∧
    Swap.applyOp c6s2 (Swap.Op.deposit 3 0 100 oidA murlA) = .ok c6s3 ∧
    (AL.getD c6s3.payments ⟨3, 0, oidA⟩ Swap.zeroPayment).status = .Pending := by
  decide

/-- C4, amended: release characterized in both contracts.  Plain contract:
releasePayment succeeds exactly when the caller has BACKEND_ROLE, the
status is Pending or Processing, the recipient is nonzero, the multi-sig
precondition holds, and custody covers the amount (always true in
reachable states by conservation); on success the status becomes
Completed, the fee joins accumulatedFees, and exactly `amount` (not fee)
leaves custody.  Swap variant: release additionally demands status
exactly Pending (Processing is rejected) and leaves accumulatedFees
unchanged, since there the fee was accumulated already at deposit. -/
theorem C4_release_characterization
    (ps : Plain.EscrowState) (b r : Nat) (pid : Plain.PaymentId) (ps' : Plain.EscrowState)
    (ss : Swap.EscrowState) (b2 r2 : Nat) (spid : Swap.PaymentId) (ss' : Swap.EscrowState) :
    (isGood (Plain.releasePayment ps b pid r) = true ↔
       (b ∈ ps.backends ∧
        ((AL.getD ps.payments pid Plain.zeroPayment).status = .Pending ∨
         (AL.getD ps.payments pid Plain.zeroPayment).status = .Processing) ∧
        r ≠ 0 ∧
        ((AL.getD ps.payments pid Plain.zeroPayment).requiresMultiSig = true →
          2 ≤ (AL.getD ps.payments pid Plain.zeroPayment).approvalCount) ∧
        (AL.getD ps.payments pid Plain.zeroPayment).amount ≤ ps.custody)) ∧
    (Plain.releasePayment ps b pid r = .ok ps' →
       (AL.getD ps'.payments pid Plain.zeroPayment).status = .Completed ∧
       ps'.accumulatedFees
         = ps.accumulatedFees + (AL.getD ps.payments pid Plain.zeroPayment).fee ∧
       ps'.custody + (AL.getD ps.payments pid Plain.zeroPayment).amount = ps.custody) ∧
    (isGood (Swap.releasePayment ss b2 spid r2) = true ↔
       (b2 ∈ ss.backends ∧
        (AL.getD ss.payments spid Swap.zeroPayment).status = .Pending ∧
        r2 ≠ 0 ∧
        (AL.getD ss.payments spid Swap.zeroPayment).amount ≤ ss.custody)) ∧
    (Swap.releasePayment ss b2 spid r2 = .ok ss' →
       (AL.getD ss'.payments spid Swap.zeroPayment).status = .Completed ∧
       ss'.accumulatedFees = ss.accumulatedFees ∧
       ss'.custody + (AL.getD ss.payments spid Swap.zeroPayment).amount = ss.custody) := by
  refine ⟨?_, ?_, ?_, ?_⟩
  · unfold Plain.releasePayment
    simp only [isGood_chk]
    simp [isGood]
  · intro h
    unfold Plain.releasePayment at h
    simp only [chk_ok, Except.ok.injEq] at h
    obtain ⟨hb, hst, hr0, hms, hcu, hok⟩ := h
    subst hok
    refine ⟨?_, ?_, ?_⟩
    · dsimp only
      rw [AL.getD_store_self]
    · rfl
    · dsimp only
      omega
  · unfold Swap.releasePayment
    simp only [isGood_chk]
    simp [isGood]
  · intro h
    unfold Swap.releasePayment at h
    simp only [chk_ok, Except.ok.injEq] at h
    obtain ⟨hb, hst, hr0, hcu, hok⟩ := h
    subst hok
    refine ⟨?_, ?_, ?_⟩
    · dsimp only
      rw [AL.getD_store_self]
    · rfl
    · dsimp only
      omega

theorem C4_release_characterization_witness :
    isGood (Plain.releasePayment c4ps 2 cpidA 9) = true ∧
    isGood (Swap.releasePayment c4ss 2 c4spid 9) = true :=
  ⟨(C4_release_characterization c4ps 2 9 cpidA c4ps c4ss 2 9 c4spid c4ss).1.mpr
     (by decide),
   (C4_release_characterization c4ps 2 9 cpidA c4ps c4ss 2 9 c4spid c4ss).2.2.1.mpr
     (by decide)⟩

/-- C4 counterexample: in PaymentEscrowWithSwap a successful release does
NOT add the payment's fee to accumulatedFees — after releasing a payment
with fee 1, accumulatedFees is still 1 (set at deposit), not 1 + 1 as the
claim requires. -/
theorem C4_release_cex :
    Swap.applyOp (Swap.initState 1 2) (Swap.Op.deposit 3 0 100 oidA murlA) = .ok c4cs1 ∧
    (AL.getD c4cs1.payments ⟨3, 0, oidA⟩ Swap.zeroPayment).fee = 1 ∧
    c4cs1.accumulatedFees = 1 ∧
    Swap.applyOp c4cs1 (Swap.Op.release 2 ⟨3, 0, oidA⟩ 7) = .ok c4cs2 ∧
    c4cs2.accumulatedFees = 1 ∧
    c4cs2.accumulatedFees
      ≠ c4cs1.accumulatedFees + (AL.getD c4cs1.payments ⟨3, 0, oidA⟩ Swap.zeroPayment).fee := by
  decide

/-- C5, amended: self-service refund characterized in both contracts.
Plain contract: exactly as claimed — with the caller the payer, the
status Pending or Processing and custody sufficient, refundPayment fails
with the timeout error precisely while now < depositTime + escrowTimeout,
succeeds at the inclusive boundary, moves exactly amount + fee back and
sets status Refunded.  Swap variant: refund additionally requires status
exactly Pending and accumulatedFees ≥ fee (see C10), so a timeout-elapsed
refund can still revert. -/
theorem C5_refund_characterization
    (ps : Plain.EscrowState) (u now : Nat) (pid : Plain.PaymentId) (ps' : Plain.EscrowState)
    (ss : Swap.EscrowState) (u2 now2 : Nat) (spid : Swap.PaymentId) :
    (isGood (Plain.refundPayment ps u now pid) = true ↔
       ((AL.getD ps.payments pid Plain.zeroPayment).user = u ∧
        ((AL.getD ps.payments pid Plain.zeroPayment).status = .Pending ∨
         (AL.getD ps.payments pid Plain.zeroPayment).status = .Processing) ∧
        (AL.getD ps.payments pid Plain.zeroPayment).depositTime + ps.escrowTimeout ≤ now ∧
        (AL.getD ps.payments pid Plain.zeroPayment).amount +
          (AL.getD ps.payments pid Plain.zeroPayment).fee ≤ ps.custody)) ∧
    (((AL.getD ps.payments pid Plain.zeroPayment).user = u ∧
      ((AL.getD ps.payments pid Plain.zeroPayment).status = .Pending ∨
       (AL.getD ps.payments pid Plain.zeroPayment).status = .Processing) ∧
      now < (AL.getD ps.payments pid Plain.zeroPayment).depositTime + ps.escrowTimeout) →
       Plain.refundPayment ps u now pid = .error .timeoutNotReached) ∧
    (Plain.refundPayment ps u now pid = .ok ps' →
       (AL.getD ps'.payments pid Plain.zeroPayment).status = .Refunded ∧
       ps'.custody + ((AL.getD ps.payments pid Plain.zeroPayment).amount +
         (AL.getD ps.payments pid Plain.zeroPayment).fee) = ps.custody ∧
       ps'.accumulatedFees = ps.accumulatedFees) ∧
    (isGood (Swap.refundPayment ss u2 now2 spid) = true ↔
       ((AL.getD ss.payments spid Swap.zeroPayment).user = u2 ∧
        (AL.getD ss.payments spid Swap.zeroPayment).status = .Pending ∧
        (AL.getD ss.payments spid Swap.zeroPayment).depositTime + ss.escrowTimeout ≤ now2 ∧
        (AL.getD ss.payments spid Swap.zeroPayment).amount +
          (AL.getD ss.payments spid Swap.zeroPayment).fee ≤ ss.custody ∧
        (AL.getD ss.payments spid Swap.zeroPayment).fee ≤ ss.accumulatedFees)) := by
  refine ⟨?_, ?_, ?_, ?_⟩
  · unfold Plain.refundPayment
    simp only [isGood_chk]
    simp [isGood]
  · intro h
    obtain ⟨hown, hst, hlt⟩ := h
    have hnt : ¬((AL.getD ps.payments pid Plain.zeroPayment).depositTime +
        ps.escrowTimeout ≤ now) := by omega
    unfold Plain.refundPayment
    simp only [chk]
    rw [if_pos hown, if_pos hst, if_neg hnt]
  · intro h
    unfold Plain.refundPayment at h
    simp only [chk_ok, Except.ok.injEq] at h
    obtain ⟨hown, hst, ht, hcu, hok⟩ := h
    subst hok
    refine ⟨?_, ?_, ?_⟩
    · dsimp only
      rw [AL.getD_store_self]
    · dsimp only
      omega
    · rfl
  · unfold Swap.refundPayment
    simp only [isGood_chk]
    simp [isGood]

theorem C5_refund_characterization_witness :
    isGood (Plain.refundPayment c4ps 3 99999 cpidA) = true ∧
    Plain.refundPayment c4ps 3 3604 cpidA = .error .timeoutNotReached ∧
    isGood (Swap.refundPayment c4ss 3 99999 c4spid) = true :=
  ⟨(C5_refund_characterization c4ps 3 99999 cpidA c4ps c4ss 3 99999 c4spid).1.mpr
     (by decide),
   (C5_refund_characterization c4ps 3 3604 cpidA c4ps c4ss 3 99999 c4spid).2.1
     (by decide),
   (C5_refund_characterization c4ps 3 99999 cpidA c4ps c4ss 3 99999 c4spid).2.2.2.mpr
     (by decide)⟩

/-- C5 counterexample: in PaymentEscrowWithSwap, after the admin withdraws
fees, the payer's refund at now = depositTime + escrowTimeout (timeout
reached, status Pending, caller is the payer) still reverts — custody is
100 but the refund must move amount + fee = 101 (and the fee subtraction
would also underflow), so "succeeds when now ≥ depositTime +
escrowTimeout" is false in the swap variant. -/
theorem C5_refund_cex :
    Swap.applyOp (Swap.initState 1 2) (Swap.Op.deposit 3 0 100 oidA murlA) = .ok c5cs1 ∧
    Swap.applyOp c5cs1 (Swap.Op.withdraw 1 9) = .ok c5cs2 ∧
    (AL.getD c5cs2.payments ⟨3, 0, oidA⟩ Swap.zeroPayment).user = 3 ∧
    (AL.getD c5cs2.payments ⟨3, 0, oidA⟩ Swap.zeroPayment).status = .Pending ∧
    (AL.getD c5cs2.payments ⟨3, 0, oidA⟩ Swap.zeroPayment).depositTime +
      c5cs2.escrowTimeout ≤ 3600 ∧
    isGood (Swap.refundPayment c5cs2 3 3600 ⟨3, 0, oidA⟩) = false := by
  decide

/-- C8: while paused, the direct deposit and every swap-entry operation
(swap-then-deposit and swap-only, in both shapes) revert with the paused
error before doing anything else; the operations the spec lists as exits
— refundPayment, raiseDispute, releasePayment, resolveDispute,
approvePayment and withdrawFees — never read the paused flag: running any
of them on the paused state gives exactly the result of running it on the
unpaused state (with the flag carried along), so they succeed whenever
their own preconditions hold. -/
theorem C8_pause_behavior (s : Plain.EscrowState) (o : Plain.Op) (b : Bool)
    (ss : Swap.EscrowState) (so : Swap.Op)
    (snd now bn amt tok ain qo act : Nat) (oid murl : String) :
    (s.paused = true →
       Plain.applyOp s (.deposit snd now bn amt oid murl) = .error .paused) ∧
    (Plain.Op.pauseExempt o = true →
       Plain.applyOp (Plain.setPaused s b) o
         = (Plain.applyOp s o).map (fun t => Plain.setPaused t b)) ∧
    (ss.paused = true →
       Swap.applyOp ss (.deposit snd now amt oid murl) = .error .paused) ∧
    (ss.paused = true →
       Swap.applyOp ss (.swapDeposit snd now tok ain qo act oid murl) = .error .paused) ∧
    (ss.paused = true →
       Swap.applyOp ss (.swapToSelf snd tok ain qo act) = .error .paused) ∧
    (Swap.Op.pauseExempt so = true →
       Swap.applyOp (Swap.setPaused ss b) so
         = (Swap.applyOp ss so).map (fun t => Swap.setPaused t b)) := by
  refine ⟨?_, ?_, ?_, ?_, ?_, ?_⟩
  · intro hp
    unfold Plain.applyOp Plain.depositPayment
    simp only [chk]
    rw [if_neg (by rw [hp]; exact fun h => Bool.noConfusion h)]
  · intro he
    cases o with
    | deposit snd2 now2 bn2 amt2 oid2 murl2 => exact Bool.noConfusion he
    | release snd2 pid r => exact Plain.release_pause_free s b snd2 r pid
    | refund snd2 now2 pid => exact Plain.refund_pause_free s b snd2 now2 pid
    | opRefund snd2 pid => exact Bool.noConfusion he
    | approve snd2 pid => exact Plain.approve_pause_free s b snd2 pid
    | dispute snd2 pid => exact Plain.dispute_pause_free s b snd2 pid
    | resolve snd2 pid rtu r => exact Plain.resolve_pause_free s b snd2 r pid rtu
    | withdraw snd2 dest => exact Plain.withdraw_pause_free s b snd2 dest
    | setFee snd2 bps => exact Bool.noConfusion he
    | setTimeout snd2 t => exact Bool.noConfusion he
    | setThreshold snd2 t => exact Bool.noConfusion he
    | doPause snd2 => exact Bool.noConfusion he
    | doUnpause snd2 => exact Bool.noConfusion he
  · intro hp
    unfold Swap.applyOp Swap.depositPayment
    simp only [chk]
    rw [if_neg (by rw [hp]; exact fun h => Bool.noConfusion h)]
  · intro hp
    unfold Swap.applyOp Swap.swapAndDeposit
    simp only [chk]
    rw [if_neg (by rw [hp]; exact fun h => Bool.noConfusion h)]
  · intro hp
    unfold Swap.applyOp Swap.swapOnly
    simp only [chk]
    rw [if_neg (by rw [hp]; exact fun h => Bool.noConfusion h)]
  · intro he
    cases so with
    | deposit snd2 now2 amt2 oid2 murl2 => exact Bool.noConfusion he
    | swapDeposit snd2 now2 tok2 ain2 qo2 act2 oid2 murl2 => exact Bool.noConfusion he
    | swapToSelf snd2 tok2 ain2 qo2 act2 => exact Bool.noConfusion he
    | release snd2 pid r => exact Swap.releaseS_pause_free ss b snd2 r pid
    | refund snd2 now2 pid => exact Swap.refundS_pause_free ss b snd2 now2 pid
    | withdraw snd2 dest => exact Swap.withdrawS_pause_free ss b snd2 dest
    | setSlippage snd2 tol => exact Bool.noConfusion he
    | doPause snd2 => exact Bool.noConfusion he
    | doUnpause snd2 => exact Bool.noConfusion he

theorem C8_pause_behavior_witness :
    Plain.applyOp c8psPaused (.deposit 3 0 0 5 oidA murlA) = .error .paused ∧
    Plain.applyOp (Plain.setPaused c4ps true) (.refund 3 99999 cpidA)
      = (Plain.applyOp c4ps (.refund 3 99999 cpidA)).map
          (fun t => Plain.setPaused t true) ∧
    Swap.applyOp c8ssPaused (.swapDeposit 3 0 0 50 49 48 oidA murlA) = .error .paused ∧
    Swap.applyOp (Swap.setPaused c4ss true) (.withdraw 1 9)
      = (Swap.applyOp c4ss (.withdraw 1 9)).map (fun t => Swap.setPaused t true) :=
  ⟨(C8_pause_behavior c8psPaused (.refund 3 99999 cpidA) true c8ssPaused
      (.withdraw 1 9) 3 0 0 5 0 0 0 0 oidA murlA).1 (by decide),
   (C8_pause_behavior c4ps (.refund 3 99999 cpidA) true c4ss
      (.withdraw 1 9) 3 0 0 5 0 0 0 0 oidA murlA).2.1 (by decide),
   (C8_pause_behavior c8psPaused (.refund 3 99999 cpidA) true c8ssPaused
      (.withdraw 1 9) 3 0 0 50 0 0 49 48 oidA murlA).2.2.2.1 (by decide),
   (C8_pause_behavior c4ps (.refund 3 99999 cpidA) true c4ss
      (.withdraw 1 9) 3 0 0 5 0 0 0 0 oidA murlA).2.2.2.2.2 (by decide)⟩

/-- C9: the enforced minimum swap output is exactly
floor(expectedOut * (10000 - slippageTolerance) / 10000) — witnessed by
the floor characterization and the spec's concrete scenario
(quote 49.000000 at 50 bps gives 48.755000) — and an execution output
below the bound makes the whole swap-and-deposit (or swap-only) call
revert with the slippage error, so no payment record is created and no
custody changes. -/
theorem C9_slippage_bound (q tol : Nat) (ss : Swap.EscrowState)
    (snd now tok ain qo act : Nat) (oid murl : String) :
    (calcMinAmountOut q tol * 10000 ≤ q * (10000 - tol) ∧
     q * (10000 - tol) < calcMinAmountOut q tol * 10000 + 10000) ∧
    calcMinAmountOut 49000000 50 = 48755000 ∧
    (ss.paused = false → 0 < ain →
     act < calcMinAmountOut qo ss.slippageTolerance →
       Swap.swapAndDeposit ss snd now tok ain qo act oid murl = .error .slippage ∧
       Swap.swapOnly ss snd tok ain qo act = .error .slippage) := by
  refine ⟨⟨?_, ?_⟩, by decide, ?_⟩
  · exact Nat.div_mul_le_self (q * (10000 - tol)) 10000
  · have h1 := Nat.div_add_mod (q * (10000 - tol)) 10000
    have h2 : q * (10000 - tol) % 10000 < 10000 := Nat.mod_lt _ (by omega)
    unfold calcMinAmountOut
    omega
  · intro hp ha hs
    have hns : ¬(calcMinAmountOut qo ss.slippageTolerance ≤ act) := by omega
    constructor
    · unfold Swap.swapAndDeposit
      simp only [chk]
      rw [if_pos hp, if_pos ha, if_neg hns]
    · unfold Swap.swapOnly
      simp only [chk]
      rw [if_pos hp, if_pos ha, if_neg hns]

theorem C9_slippage_bound_witness :
    Swap.swapAndDeposit (Swap.initState 1 2) 3 0 5 50000000 49000000 48500000 oidA murlA
      = .error .slippage ∧
    Swap.swapOnly (Swap.initState 1 2) 3 5 50000000 49000000 48500000
      = .error .slippage :=
  (C9_slippage_bound 49000000 50 (Swap.initState 1 2) 3 0 5 50000000 49000000
    48500000 oidA murlA).2.2 (by decide) (by decide) (by decide)

/-- C10: in PaymentEscrowWithSwap, refundPayment executes the checked
subtraction `accumulatedFees -= payment.fee` (after the transfer), so
whenever accumulatedFees has been drained below the payment's fee — e.g.
by a prior withdrawFees — the payer's refund reverts even though the
timeout has long passed, and a refund can only ever succeed while
accumulatedFees ≥ fee. -/
theorem C10_swap_refund_needs_fees (ss : Swap.EscrowState) (u now : Nat)
    (spid : Swap.PaymentId) (ss' : Swap.EscrowState) :
    (ss.accumulatedFees < (AL.getD ss.payments spid Swap.zeroPayment).fee →
       isGood (Swap.refundPayment ss u now spid) = false) ∧
    (Swap.refundPayment ss u now spid = .ok ss' →
       (AL.getD ss.payments spid Swap.zeroPayment).fee ≤ ss.accumulatedFees) := by
  constructor
  · intro hlt
    cases hg : isGood (Swap.refundPayment ss u now spid) with
    | false => rfl
    | true =>
        exfalso
        unfold Swap.refundPayment at hg
        simp only [isGood_chk] at hg
        obtain ⟨_, _, _, _, hfee, _⟩ := hg
        omega
  · intro h
    unfold Swap.refundPayment at h
    simp only [chk_ok, Except.ok.injEq] at h
    obtain ⟨_, _, _, _, hfee, _⟩ := h
    exact hfee

theorem C10_swap_refund_needs_fees_witness :
    c10ss.accumulatedFees < (AL.getD c10ss.payments c4spid Swap.zeroPayment).fee ∧
    isGood (Swap.refundPayment c10ss 3 99999 c4spid) = false :=
  ⟨by decide,
   (C10_swap_refund_needs_fees c10ss 3 99999 c4spid c10ss).1 (by decide)⟩
